import Mathlib

set_option maxRecDepth 100000
set_option exponentiation.threshold 100000

/-!
Verification development for the φ-run-finder program (`founds.py`).

The program computes the decimal expansion of the golden ratio
φ = (1 + √5) / 2 with Python `Decimal` arithmetic, scans the resulting
character stream (`"1."` followed by fractional digits) for first
occurrences of digit runs of lengths 2..9, verifies a 20,000-character
prefix against a reference table, and then streams digits through a
curses UI (batch phase over a 100,000-character prefix, then a live
generator phase).

Modelling conventions:
* strings are modelled as `List Char`; Python's `str.isdigit` is modelled
  by `Char.isDigit` (only ASCII characters occur in the streams involved);
* `Decimal` arithmetic at context precision `prec` is modelled as exact:
  `format((1 + Decimal(5).sqrt()) / 2, 'f')` is taken to produce the first
  `prec` significant digits of the true decimal expansion of φ, i.e.
  `"1."` followed by `prec - 1` fractional digits.  The j-th fractional
  digit is recovered exactly from integer arithmetic:
  `⌊φ·10^j⌋ = (10^j + Nat.sqrt (5·10^(2j))) / 2`, so the digit is that
  value mod 10;
* `sys.exit(1)` after a failed verification is modelled by `Except.error`
  carrying the report, and success by `Except.ok`;
* the curses `Display` collaborator is modelled by the data the program
  sends to it: the milestone events (`n`, sequence, start position)
  appended to an event list.
-/

namespace Founds

/-- Character for a decimal digit value `d < 10` (code point `48 + d`). -/
def digitChar (d : ℕ) : Char := Char.ofNat (48 + d)

/-- Integer part of `φ · 10^m`: since `φ = (1 + √5)/2`,
`⌊φ·10^m⌋ = ⌊(10^m + √(5·10^2m)) / 2⌋`, and the inner floor of the square
root is `Nat.sqrt` (truncation of the irrational `√5·10^m`). -/
def phiFloor (m : ℕ) : ℕ := (10 ^ m + Nat.sqrt (5 * 10 ^ (2 * m))) / 2

/-- The `j`-th fractional decimal digit of φ (1-based `j`). -/
def phiFracDigit (j : ℕ) : ℕ := phiFloor j % 10

/-- Model of `format((Decimal(1) + Decimal(5).sqrt()) / Decimal(2), 'f')`
with `getcontext().prec = prec` (from `get_phi_prefix` in `founds.py`):
`prec` significant digits of φ, i.e. `'1'`, `'.'`, then `prec - 1`
fractional digits. -/
def decimalPhiFormat (prec : ℕ) : List Char :=
  '1' :: '.' :: (List.range (prec - 1)).map (fun i => digitChar (phiFracDigit (i + 1)))

/-- The `while len(s) < N` retry loop of `get_phi_prefix` (`founds.py`
lines 61-68): recompute at precision `prec + 50` while the formatted
string is shorter than `N`; on exit return `s[:N]`.  The loop is given
fuel `N` by `get_phi_prefix`; it in fact exits on the first test. -/
def getPhiLoop (N : ℕ) : ℕ → ℕ → List Char
  | 0, prec => (decimalPhiFormat prec).take N
  | fuel + 1, prec =>
    let s := decimalPhiFormat prec
    if s.length < N then getPhiLoop N fuel (prec + 50) else s.take N

/-- `get_phi_prefix(N)` from `founds.py`: compute φ at working precision
`N + 50`, retry with precision increased by 50 while the result is
shorter than `N`, and return exactly the first `N` characters. -/
def get_phi_prefix (N : ℕ) : List Char := getPhiLoop N N (N + 50)

/-- The character of the φ digit stream at 1-based position `pos`
(position 1 is `'1'`, position 2 is `'.'`, position `p ≥ 3` is the
`(p-2)`-th fractional digit).  This is the `DigitStream` addressing used
throughout the program. -/
def streamChar (pos : ℕ) : Char :=
  if pos = 1 then '1' else if pos = 2 then '.' else digitChar (phiFracDigit (pos - 2))

/-- Value of the variable `printed` of `phi_digit_generator` (`founds.py`
lines 302-311) at the start of outer-loop iteration `m`.  The generator
starts with `printed = 0`, recomputes φ at precision `printed + 10`, and
the inner `while printed < len(s)` loop leaves `printed = max printed
(len s)`. -/
def genPrinted : ℕ → ℕ
  | 0 => 0
  | m + 1 => max (genPrinted m) ((decimalPhiFormat (genPrinted m + 10)).length)

/-- Characters yielded by outer-loop iteration `m` of
`phi_digit_generator`: `s[printed:]` for `s` computed at precision
`printed + 10`. -/
def genBlockChars (m : ℕ) : List Char :=
  (decimalPhiFormat (genPrinted m + 10)).drop (genPrinted m)

/-- Concatenation of the first `m` outer-loop blocks of
`phi_digit_generator`: the first yields of the generator, in order. -/
def genStream : ℕ → List Char
  | 0 => []
  | m + 1 => genStream m ++ genBlockChars m

/-- The `k`-th character (0-based) yielded by `phi_digit_generator`.
Each block yields at least one character (blocks have 11 characters), so
the first `k + 1` blocks cover yield index `k`. -/
def phi_digit_generator_char (k : ℕ) : Char := (genStream (k + 1)).getD k ' '

/-- One step of the run state machine shared by `find_first_runs` and the
streaming loops of `curses_main`: a non-digit resets the run to
`(none, 0)`; a digit equal to the active run character extends the run;
any other digit starts a fresh run of length 1. -/
def findStep : Option Char × ℕ → Char → Option Char × ℕ
  | (rc, rl), ch =>
    if ch.isDigit = false then (none, 0)
    else if rc = some ch then (rc, rl + 1)
    else (some ch, 1)

/-- Inner loop of `find_first_runs` (`founds.py` lines 89-105) for a fixed
target length `n`: scan characters (0-based index `i`), maintaining
`(run_char, run_len)` exactly as the source does, and return
`(run_char * n, (i+1) - (n-1))` the first time `run_len == n`; if the
input ends first, return `("N/A", None)`. -/
def findFirstRunAux (n : ℕ) : Option Char × ℕ → ℕ → List Char → List Char × Option ℕ
  | _, _, [] => ("N/A".data, none)
  | (rc, rl), i, ch :: rest =>
    if ch.isDigit = false then findFirstRunAux n (none, 0) (i + 1) rest
    else
      let p := if rc = some ch then (rc, rl + 1) else (some ch, 1)
      if p.2 = n then (List.replicate n ch, some ((i + 1) - (n - 1)))
      else findFirstRunAux n p (i + 1) rest

/-- Entry `n` of the dictionary returned by `find_first_runs(phi_str)`:
the scan starts at index 0 with no active run. -/
def find_first_runs (s : List Char) (n : ℕ) : List Char × Option ℕ :=
  findFirstRunAux n (none, 0) 0 s

/-- Specification device: the first 0-based index `j` at which the run
length reaches `n`, together with the character scanned there, starting
from state `st` at index `i`. -/
def firstHitFrom (n : ℕ) : Option Char × ℕ → ℕ → List Char → Option (ℕ × Char)
  | _, _, [] => none
  | st, i, ch :: rest =>
    let st' := findStep st ch
    if st'.2 = n then some (i, ch) else firstHitFrom n st' (i + 1) rest

/-- Run step paired with a running maximum of the run length, used to
certify that a stretch of the stream contains no run of a given length. -/
def findStepMax : (Option Char × ℕ) × ℕ → Char → (Option Char × ℕ) × ℕ
  | (st, m), ch =>
    let st' := findStep st ch
    (st', max m st'.2)

/-- Number of leading characters of `l` equal to `c`. -/
def revCount (c : Char) : List Char → ℕ
  | [] => 0
  | a :: l => if a = c then revCount c l + 1 else 0

/-- The run state determined by a reversed stream: the run ending a
stream `s` is read off the head of `s.reverse`. -/
def revState : List Char → Option Char × ℕ
  | [] => (none, 0)
  | a :: l => if a.isDigit then (some a, revCount a l + 1) else (none, 0)

/-- Positional statement that a run of (at least) `n` copies of the digit
`c` starts at 1-based stream position `p` of `s`: the `n` characters at
positions `p..p+n-1` all equal `c`, and the run begins there (either
`p = 1` or the previous character differs from `c`). -/
def runReach (s : List Char) (p n : ℕ) (c : Char) : Prop :=
  c.isDigit = true ∧ 1 ≤ p ∧ (∀ j, j < n → s[p - 1 + j]? = some c) ∧
    (p = 1 ∨ s[p - 2]? ≠ some c)

instance (s : List Char) (p n : ℕ) (c : Char) : Decidable (runReach s p n c) := by
  unfold runReach; infer_instance

/-- State of the `curses_main` streaming loops (`founds.py` lines
238-243): the 1-based position counter, the active run, the set of run
lengths whose first run has not been recorded yet, and the milestone
events `(n, sequence, start position)` sent to the display so far. -/
structure CoState where
  total_pos : ℕ
  run_char : Option Char
  run_len : ℕ
  remaining : List ℕ
  events : List (ℕ × List Char × ℕ)

/-- Initial state of the batch phase: position 0, no active run,
`remaining = set(range(2, 10))`, no events. -/
def coInit : CoState := ⟨0, none, 0, [2, 3, 4, 5, 6, 7, 8, 9], []⟩

/-- One iteration of the batch-phase loop of `curses_main` (`founds.py`
lines 246-287): advance the position, update the run exactly as the
source does, and if the new run length is a still-remaining target,
record the milestone event `(n, run_char * n, total_pos - n + 1)` and
remove `n` from the remaining set. -/
def coStep (st : CoState) (ch : Char) : CoState :=
  let pos := st.total_pos + 1
  if ch.isDigit = false then
    { st with total_pos := pos, run_char := none, run_len := 0 }
  else
    let p : Option Char × ℕ :=
      match st.run_char with
      | none => (some ch, 1)
      | some c => if ch = c then (some c, st.run_len + 1) else (some ch, 1)
    if p.2 ∈ st.remaining then
      { total_pos := pos, run_char := p.1, run_len := p.2,
        remaining := st.remaining.erase p.2,
        events := st.events ++ [(p.2, List.replicate p.2 ch, pos - p.2 + 1)] }
    else
      { total_pos := pos, run_char := p.1, run_len := p.2,
        remaining := st.remaining, events := st.events }

/-- One iteration of the live-phase loop of `curses_main` (`founds.py`
lines 315-345): advance the position and update the run identically to
the batch phase, but perform no first-run recording at all (the source
only classifies the character for display). -/
def liveStep (st : CoState) (ch : Char) : CoState :=
  let pos := st.total_pos + 1
  if ch.isDigit = false then
    { st with total_pos := pos, run_char := none, run_len := 0 }
  else
    let p : Option Char × ℕ :=
      match st.run_char with
      | none => (some ch, 1)
      | some c => if ch = c then (some c, st.run_len + 1) else (some ch, 1)
    { st with total_pos := pos, run_char := p.1, run_len := p.2 }

/-- The milestone event recorded for run length `n`, if any. -/
def eventFor (st : CoState) (n : ℕ) : Option (List Char × ℕ) :=
  (st.events.find? (fun e => e.1 == n)).map (fun e => e.2)

/-- The reference table `GROUND_TRUTH` of `founds.py` (lines 14-23). -/
def GROUND_TRUTH (n : ℕ) : List Char × Option ℕ :=
  if n = 2 then ("33".data, some 7)
  else if n = 3 then ("222".data, some 131)
  else if n = 4 then ("4444".data, some 1218)
  else if n = 5 then ("99999".data, some 6401)
  else ("N/A".data, none)

/-- The mismatch-collection loop of `run_debug_check` (`founds.py` lines
123-128): for `n` in `range(2, 10)`, append `(n, expected, found)`
whenever the expected and found pairs differ. -/
def debug_mismatches (truth found : ℕ → List Char × Option ℕ) :
    List (ℕ × (List Char × Option ℕ) × (List Char × Option ℕ)) :=
  (List.range' 2 8).foldl
    (fun acc n => if truth n ≠ found n then acc ++ [(n, truth n, found n)] else acc) []

/-- `run_debug_check` (`founds.py` lines 112-142), parametrised by the
reference table: scan the 20,000-character prefix, collect all
mismatches against the table, and exit with a failure report
(`sys.exit(1)`, modelled by `Except.error`) if there is any; otherwise
proceed (`Except.ok`). -/
def run_debug_check (truth : ℕ → List Char × Option ℕ) :
    Except (List (ℕ × (List Char × Option ℕ) × (List Char × Option ℕ))) Unit :=
  let found := fun n => find_first_runs ( get_phi_prefix 20000) n
  let ms := debug_mismatches truth found
  if ms ≠ [] then Except.error ms else Except.ok ()

/-- Verified value of `(10 ^ 19998 + Nat.sqrt (5 * 10 ^ 39996)) / 2 = ⌊φ·10^19998⌋`,
used to evaluate the 20,000-character reference prefix in the kernel. -/
def Blit : ℕ :=
  1618033988749894848204586834365638117720309179805762862135448622705260462818902449707207204189391137484754088075386891752126633862223536931793180060766726354433389086595939582905638322661319928290267880675208766892501711696207032221043216269548626296313614438149758701220340805887954454749246185695364864449241044320771344947049565846788509874339442212544877066478091588460749988712400765217057517978834166256249407589069704000281210427621771117778053153171410117046665991466979873176135600670874807101317952368942752194843530567830022878569978297783478458782289110976250030269615617002504643382437764861028383126833037242926752631165339247316711121158818638513316203840052221657912866752946549068113171599343235973494985090409476213222981017261070596116456299098162905552085247903524060201727997471753427775927786256194320827505131218156285512224809394712341451702237358057727861600868838295230459264787801788992199027077690389532196819861514378031499741106926088674296226757560523172777520353613936210767389376455606060592165894667595519004005559089502295309423124823552122124154440064703405657347976639723949499465845788730396230903750339938562102423690251386804145779956981224457471780341731264532204163972321340444494873023154176768937521030687378803441700939544096279558986787232095124268935573097045095956844017555198819218020640529055189349475926007348522821010881946445442223188913192946896220023014437702699230078030852611807545192887705021096842493627135925187607778846658361502389134933331223105339232136243192637289106705033992822652635562090297986424727597725655086154875435748264718141451270006023890162077732244994353088999095016803281121943204819643876758633147985719113978153978074761507722117508269458639320456520989698555678141069683728840587461033781054443909436835835813811311689938555769754841491445341509129540700501947754861630754226417293946803673198058618339183285991303960720144559504497792120761247856459161608370594987860069701894098864007644361709334172709191433650137157660114803814306262380514321173481510055901345610118007905063814215270930858809287570345050780814545881990633612982798141174533927312080928972792221329806429468782427487401745055406778757083237310975915117762978443284747908176518097787268416117632503861211291436834376702350371116330725869883258710336322238109809012110198991768414917512331340152733843837234500934786049792945991582201258104598230925528721241370436149102054718554961180876426576511060545881475604431784798584539731286301625448761148520217064404111660766950597757832570395110878230827106478939021115691039276838453863333215658296597731034360323225457436372041244064088826737584339536795931232213437320995749889469956564736007295999839128810319742631251797141432012311279551894778172691415891177991956481255800184550656329528598591000908621802977563789259991649946428193022293552346674759326951654214021091363018194722707890122087287361707348649998156255472811373479871656952748900814438405327483781378246691744422963491470815700735254570708977267546934382261954686153312095335792380146092735102101191902183606750973089575289577468142295433943854931553396303807291691758461014609950550648036793041472365720398600735507609023173125016132048435836481770484818109916024425232716721901893345963786087875287017393593030133590112371023917126590470263494028307668767436386513271062803231740693173344823435645318505813531085497333507599667787124490583636754132890862406324563953572125242611702780286560432349428373017255744058372782679960317393640132876277012436798311446436947670531272492410471670013824783128656506493434180390041017805339505877245866557552293915823970841772983372823115256926092995942240000560626678674357923972454084817651973436265268944888552720274778747335983536727761407591712051326934483752991649980936024617844267572776790019191907038052204612324823913261043271916845123060236278935454324617699757536890417636502547851382463146583363833760235778992672988632161858395903639981838458276449124598093704305555961379734326134830494949686810895356963482817812886253646084203394653819441945714266682371839491832370908574850266568039897440662105360306400260817112665995419936873160945722888109207788227720363668448153256172841176909792666655223846883113718529919216319052015686312228207155998764684235520592853717578076560503677313097519122397388722468258057159744574048429878073522159842667662578077062019430400542550158312503017534094117191019298903844725033298802450143679684416947959545304591031381162187045679978663661746059570003445970113525181346006565535203478881174149941274826415213556776394039071038708818233806803350038046800174808220591096844202644640218770534010031802881664415309139394815640319282278548241451050318882518997007486228794215589574282021665706218809057808805032467699129728721038707369740643566745892025865657397856085956653410703599783204463363464854894976638853510455272982422906998488536968280464597457626514343590509383212437433338705166571490059071056702488798580437181512610044038148804072524406164290224782271527241120850657888387124936351068063651667432223277677557973992703762319147047323955120607055039920884426037087908433342618384135970781648295537143219611895037977146300075559753795703552271449319132172556440128309180504500899218705121186069335731538959350790300736727023314165320423401553741442687154055116479611433230248544040940691145613987302603951828168034482525432673857590056043202453727192912486458133344169852993913574786989579864394980230471169671573622839120181273129165899527599192203183723568272793856373312654799859124632750300605925674549794350881192950568549325935531872914180113641218747075262810686983013576052471944559321955359610452830314883911769301196585834314424894898565584250834109429502771975833522442912573649380754171137392437601435068298784932712997512286881960498357751587717804106971319667534771947922636519016339771284739079336111191408998305603361060987171783055435403560895292908184641437139294378135604820389479125745077075575103002420726629001809042293424942590606661413322872269806901459945119954780163991514126125257282806643312616574693881951064421673871800011004218483025809165433837492364118388856468514315006373190429514814694243146089525470720374055669130692209908048194529751106504642810541775525909518713188835914765996041317960209415308585533238772538023272763297737214312796821671623442118320180288141274744316884721845939278143547409999907223320305926297661123832798331698825393126200650370288447828666940447307947104761255865837529862362509998232335971550723383833244081525778193364262630433026589581708004512788731159355877472172564947000516366725771539209840950327451121536873009121996295227659131637093968607271342692623154753304379933165811073696431421719794340563915512108108136262688856974806806011691894175027229874158699179145349946244419401219785860137366082869072236514771391268742096651378756205918543288883417429209015631332831935756220897137656309785015631549824564458654247929357228287506084814533513521817295879329911710032476222052194645105362450512988430871344439507244267351462861799183233645983696376327225756915972395438305208664747423815110792734948369523964792689936983249179995027895000604596613134633630249499514808053290179029751825158750490074351879835118360327227726017174045355716588555782972910619581935171055482579307091005763586990192972179951687311755631444856481002200142545405542927345883711602099479457208237804368718944805636891825802444996318783420274910153357910727336253289069334741238022220116262771193085448502954191320040099986556665177566409536561978978183804510303565101315894589028718610869058939471368014845700183664956472032943343742989464274125514359058434840919548701523614031739139036164401984550510491211697920012019996050699496640303508636929039410070194505320162348727632327324494396304808905542513797233147518520709102506368598167953048181007394245317002388047598343234504142584314063612721096022824233782280902797659607771084939151748873168777135223900911711735091860065462009902497585277925427816597038349505801062615533369109378465977105297502231730741217783441894118459658610298018778742744563866966127724503845860526415103040898257777544741153320764075881677514975538047116296677710058766461595496776927054962393985709255070274069978140843124965363071866533718060587422425981653070525738345415770542921629981149175086113117657731720956156564786954744892713206080635457794624145310669837421137981689638235333044778831693397287289181036640832698569882544385166758622899306964346848975148408790396476042036102060217173944702634876336543931952290773836167389811781242483655781050341694515636260430036657431084766548777801285779236454185224472361713742292558415931356128663716703280721715533926463257306730639108541088680857428385882806023033414085503909735387261345119629264159952127893113544314601527309025538271043259662267439037455636122861390783194335705900381487008986613153981958574423304419708566967222931427307413848827889755888607997387044702031668348569419909654802982493198176579268298556297230106827772351627407838074318778273182119196952800516087915721288263379682312725628700015001829297577299935790949196407634428615757135444278983830404547027101945800425820212023445806303450336581472185492036799899729353539196812133195165379745399111494244451830338588412904018178188213760066592849413677543174516054093871103687152116404058219344712044827759605416948645398783262695480139150190389959313067031866167066371964025692867138871466311891926856826919952764579977182787594609616172188681094546515788691224106098141972686192554787899263153594729228250805425169068140107817960218853307623055638163164019224545032576567392599765175308014271607143087188628598360374650571342046700834327542302770477933111836669032328853068738799071359007403049074598895136476876086784432382482189306175703195638032308197193635672741964387262587061543307296370381275151704060050575948827238563451563905265771042645947604055695095984088890376207995663880178618559159441117250923132797711380329437654750901651694965099160738339377158332302457019483474000704376186719984834016318260084626196562846491182256888575213463754902541808338213835222452587267893795053759156035794546985091022562254550030175710494698334835453238352607870922193045817823060123707532806783685413065846367888664334862493680101987827996306702595432651378060073863929085648308741576187418973458484501418897652934110137221586435599155271136233220035266778591598902314461633210265196659076320615243837476190495315829688362650420948401056545891306298277172498096419594723404651104198213476893540180382569549562860392442641598674859822800603538628391662012528266074933061965849651999794193932260172357107336425370830330114336249857536359704244464759989999508550413549775585859345765909265333072527754167584314669367678061703501200384487488382337603440775159477812218830709000873866273620916607990502269892703218997603795098905910859103929673456146107003045819212738925992696106211676436424383501410204086321499178152979681522379832242737536570085534699796554138590503268361602227884755470626984391088521030207686047068045568465604916864988606162229523239070980926293023379564821799816326458278888776745208463719710634789231066754693550476151977816990258818404079275109018244827870525059769837535143062244509022023824398231255058416232071883193006936064646820965950065492901097161865263672161074171361837766733279756268548012456576827903176039465553945231433875677303497915785885910116637484556758479527139186087825401042333298574427471189696104851264019750435990920766215589986607368376231883588450812929501146653548281714484640568652465409078154716196257844695752625694551656015191640292179885489093732803146519222475900309657154905053610437768687726191595284492046478689734737085984138451316211929720126342407736945459818650296592335345125684549745411298197358766707286016160562042306360661302814967734457977377505575646654752563226481771169978570871228315431045691232625034976811524521744973961367488220464805196887543419695119331204502160514293848447545238212701438309578558136196783023106850808458769520590532946833849047120991625563650340034396708289336983674230015751173851512691230661722764144216075129173418747143150932419249141609699986728158238592573598238948492749196461522722733387463121384362621163794670620326302250554895805730837504612992311362991730694894073425883194839992741639509844396340576352847175627621927865225396087201310804864065343961688754525342630989695176190197709631922587093421659559744717501575383767415222805706502806831433565249171997333584030641535507591159742643664828466281368021745059097058946027442926322222154594507580465712060686399043082369396932082374907675611901715613054248133117152425684784633637700152044179165011682325752361604957497063908224434445103512190488198302760017668098509652454390071990980349930268606755238796852921947323933523700866502214074645540372223434816757493731446409283790065391967740103558619361815668366168648923955549614528264728949941606158030458678914619717281554511000566605424996919741027987405932764349537145251676946206985978809469501747302284142757188719409212091379940594303705043648386004346452279933029239018659226898749921132565605578401423354260589510562036907202893931592044047683592763647996005964048607619891592981949508787860276634599054042637700459008032794347206298254452563564795429924881986461361713144857734699534755771554913842392894017540341399738461694812934792422346097430196275230138286072244963809538384015265678197645075885478551554923452347816460330629388420099508032601409183025743857706710252272436669059889085450155707542303166659247235289247025886247948875462527657272851511128782706734543102445152334565422843110396795282962501936989399834739617639880957354152601453729646814738218436005210994721194165914947167052037922552096336458484680414477803021647286239992640483635087737478245016382008952403225343799257901292656401555377540917517044196272850391266959566648772429676603673034536687340490791418869452147158279081572339691240399858693908551730798019555461285134089120610840122136170705704300605692468559164688347733208568914126794284480413846828132569291481601097862726968668673739171189314622691348945804277898996081447095247629050192603116492068677433186615469668966018226635787887506088562435626789327973546339041821087746380392162447720256726995963918246877884554971790385158392047483199031276224370662350925187754341401071123358659077481220637634590198842254727276552905043995025244403911365826708133005805882094603102082613413691275729369928930299617308928436703152385897539873889368074415263737942405064487641717686135523432698657289704630691801742779721738898594432848520572575883375638201505467206516742526818948516733280463076478132931326028932293660452102131898129876615262444874866938904061784699166654174850845979701461782158450149195721098250892345174745122543273868197258649445880837713986850659840854577316541691740670521119491662863377322637534756663700221203275243899977360060740427029722036347780482988348551895250794746055199403401107711697256442610050920598433625358470695971857626167766302117478783419756445018380410292032404088266173443390902635223505068285828544328396184809253761308201156268699079991170847555869821503100735632404219885695842006824399269537844032022223746281476592306055474769368305765496776904711596255024745078096248374499080256137509156223590810105344939417742942770914451666687004152285446380766153511415564878549360113874731038287733133883917096461748290631567880651827617657985350216659986074640126748841211300985499383371060319625067027975243101193773355485370116946748588883630803332877395716562753403672721807056225623263741488334992899702589772992240369417507434273141941574324667945785860398940750973563636888156721596763543806655939389343820759840612160643176644219026777737991455799450314687087162662265241335905699284940063727449088216352429480225663304585536363372517620490746240629389623906220304248726884323776317335742057539975743735084096577921808800894205906625727823076927886564455637580126672809525273798280300766369769281648446512774738223970617385675071466927482203748811225639940752276264649946584636740195599737028383931198848223355399649783331650084674912545229565124093909637840954169012346753752801390808308630226533523870692730719846546494549791011342871546366955434374621543918865260853669743665305885621644116480689128373577943415306094784572709870379769213462059695388438267608276591817736276699187278037542199541724283357910645206137368847085451658221931586453770183134018188272510999229176147118605291765514228811235662172416926806206488453176151642729535857983754123758761004154758055957301224592767118952773338233560433742013213928043170533794636464283519930145767064918477077689598854216479733717696259439386480748936332010988936435283244941325693174383235092582864212762094734328799843871982916250358863688574408960916197675530236361478401862718277088913603989330772930602967177602584180301334754744060932182226620770598424760826379413885986019352089598219418857238237142719303493545182401126710460730974126812790727264386856815447291448267613899450920640987926476925746988123346429952673082374057204061437487008670486125995901784249768458447368248279478247531763381748147995710312033963452267434151237223224546265463283535642466277864608398721791278430896416364222371528221998608506001582451694783189260601658274911427749335028655037276910681075578264633403992192226022085909678418600138596538772658262446575976940692405418044447384716079014497430180558893376237612969182292347684537595564684211226987316375062499711822914856896044725277600939343435583391951651329856236458931491018608496834803380909327362610620547959704212986698835735604043471283998012498022094668510934904078784501021176842763450791376876097469006657596830435192666765639609226488456702128507448211848361029076891964934023006417531734839147589166720230692453471076277197925249973285768903886801417803137994836510895272209465913045066566582585391746904868726499025467659665991645473651342597555773973485065284399773844905139058294301300083669614556697485377934078812772157914872107192588690892778787329829822145742332732659879827569508988453062402230364863477229670565241270358878302819400749805754390162857867455313271976526071076431531123915260772193621443460960897587269342236743316137185745776081177515180696621047955851401300697018450070262904794925708371201752793785549576273912455871483320101703618405216368180173414250898061606346763308505041845858166293340934791991036859130537894821586517011812101133300066957752327866855180782567528361494949207458373368458136914079775959252672739664234787466143998196480810367050660052382691650551446347111168674281773195025606429516379596594756449878914614469259366293093648048161740598082142543405252113713324081139135799716228581014191034104605692907824989562145600410456922214168308932366625176186962717194538549985514842751733692412026801599280832014583007544847423312643878084780850561043049099993643459051951874948436967727574733596708833496091574474357503986020163976661142765369526704411552001939148429346010151295311744588764830703716773961542655913990830375776630213099087127198870690329304701241058615063998529981417578043034808035882032020110476070047557101694234120341089156439478253031645937304375581946867525349532301302767823535601166413111779960997936620434495696835479307543113275586431897315151710644321892497932778012649647644754670781658074061312593752718474088161154798183078167510478092914139545646311605812690517539535569157755804106719812316384052775560522722237647118832332230995850689710187175047819065334948584232597622565758418985291447178335173226029857862929434650563669321626276738162459574179326988923272206666360819924909888314685299409913867344460496708424429782436302329389103559656017399422019886902572454714016330096121461872083651086881853340606220170995158270704423370421801766963491336959960643220053288734948931359660304243808045659447433356783167270372963636759421699937952

/-- Digit of the verified `Blit` expansion at fractional index `i + 1`. -/
def bDigit (i : ℕ) : Char := digitChar ((Blit / 10 ^ (19998 - (i + 1))) % 10)

/-- Fractional digits of φ at stream positions 3..1000. -/
def dChunk0 : List Char :=
  "61803398874989484820458683436563811772030917980576286213544862270526046281890244970720720418939113748475408807538689175212663386222353693179318006076672635443338908659593958290563832266131992829026788067520876689250171169620703222104321626954862629631361443814975870122034080588795445474924618569536486444924104432077134494704956584678850987433944221254487706647809158846074998871240076521705751797883416625624940758906970400028121042762177111777805315317141011704666599146697987317613560067087480710131795236894275219484353056783002287856997829778347845878228911097625003026961561700250464338243776486102838312683303724292675263116533924731671112115881863851331620384005222165791286675294654906811317159934323597349498509040947621322298101726107059611645629909816290555208524790352406020172799747175342777592778625619432082750513121815628551222480939471234145170223735805772786160086883829523045926478780178899219902707769038953219681986151437803149974110692608867429622675756052317277752035361393".data

/-- Fractional digits of φ at stream positions 1001..2000. -/
def dChunk1 : List Char :=
  "6210767389376455606060592165894667595519004005559089502295309423124823552122124154440064703405657347976639723949499465845788730396230903750339938562102423690251386804145779956981224457471780341731264532204163972321340444494873023154176768937521030687378803441700939544096279558986787232095124268935573097045095956844017555198819218020640529055189349475926007348522821010881946445442223188913192946896220023014437702699230078030852611807545192887705021096842493627135925187607778846658361502389134933331223105339232136243192637289106705033992822652635562090297986424727597725655086154875435748264718141451270006023890162077732244994353088999095016803281121943204819643876758633147985719113978153978074761507722117508269458639320456520989698555678141069683728840587461033781054443909436835835813811311689938555769754841491445341509129540700501947754861630754226417293946803673198058618339183285991303960720144559504497792120761247856459161608370594987860069701894098864007644361709334172709191433650137".data

/-- Fractional digits of φ at stream positions 2001..3000. -/
def dChunk2 : List Char :=
  "1576601148038143062623805143211734815100559013456101180079050638142152709308588092875703450507808145458819906336129827981411745339273120809289727922213298064294687824274874017450554067787570832373109759151177629784432847479081765180977872684161176325038612112914368343767023503711163307258698832587103363222381098090121101989917684149175123313401527338438372345009347860497929459915822012581045982309255287212413704361491020547185549611808764265765110605458814756044317847985845397312863016254487611485202170644041116607669505977578325703951108782308271064789390211156910392768384538633332156582965977310343603232254574363720412440640888267375843395367959312322134373209957498894699565647360072959998391288103197426312517971414320123112795518947781726914158911779919564812558001845506563295285985910009086218029775637892599916499464281930222935523466747593269516542140210913630181947227078901220872873617073486499981562554728113734798716569527489008144384053274837813782466917444229634914708157007352".data

/-- Fractional digits of φ at stream positions 3001..4000. -/
def dChunk3 : List Char :=
  "5457070897726754693438226195468615331209533579238014609273510210119190218360675097308957528957746814229543394385493155339630380729169175846101460995055064803679304147236572039860073550760902317312501613204843583648177048481810991602442523271672190189334596378608787528701739359303013359011237102391712659047026349402830766876743638651327106280323174069317334482343564531850581353108549733350759966778712449058363675413289086240632456395357212524261170278028656043234942837301725574405837278267996031739364013287627701243679831144643694767053127249241047167001382478312865650649343418039004101780533950587724586655755229391582397084177298337282311525692609299594224000056062667867435792397245408481765197343626526894488855272027477874733598353672776140759171205132693448375299164998093602461784426757277679001919190703805220461232482391326104327191684512306023627893545432461769975753689041763650254785138246314658336383376023577899267298863216185839590363998183845827644912459809370430555596137973432".data

/-- Fractional digits of φ at stream positions 4001..5000. -/
def dChunk4 : List Char :=
  "6134830494949686810895356963482817812886253646084203394653819441945714266682371839491832370908574850266568039897440662105360306400260817112665995419936873160945722888109207788227720363668448153256172841176909792666655223846883113718529919216319052015686312228207155998764684235520592853717578076560503677313097519122397388722468258057159744574048429878073522159842667662578077062019430400542550158312503017534094117191019298903844725033298802450143679684416947959545304591031381162187045679978663661746059570003445970113525181346006565535203478881174149941274826415213556776394039071038708818233806803350038046800174808220591096844202644640218770534010031802881664415309139394815640319282278548241451050318882518997007486228794215589574282021665706218809057808805032467699129728721038707369740643566745892025865657397856085956653410703599783204463363464854894976638853510455272982422906998488536968280464597457626514343590509383212437433338705166571490059071056702488798580437181512610044038148804072".data

/-- Fractional digits of φ at stream positions 5001..6000. -/
def dChunk5 : List Char :=
  "5244061642902247822715272411208506578883871249363510680636516674322232776775579739927037623191470473239551206070550399208844260370879084333426183841359707816482955371432196118950379771463000755597537957035522714493191321725564401283091805045008992187051211860693357315389593507903007367270233141653204234015537414426871540551164796114332302485440409406911456139873026039518281680344825254326738575900560432024537271929124864581333441698529939135747869895798643949802304711696715736228391201812731291658995275991922031837235682727938563733126547998591246327503006059256745497943508811929505685493259355318729141801136412187470752628106869830135760524719445593219553596104528303148839117693011965858343144248948985655842508341094295027719758335224429125736493807541711373924376014350682987849327129975122868819604983577515877178041069713196675347719479226365190163397712847390793361111914089983056033610609871717830554354035608952929081846414371392943781356048203894791257450770755751030024207266290018".data

/-- Fractional digits of φ at stream positions 6001..7000. -/
def dChunk6 : List Char :=
  "0904229342494259060666141332287226980690145994511995478016399151412612525728280664331261657469388195106442167387180001100421848302580916543383749236411838885646851431500637319042951481469424314608952547072037405566913069220990804819452975110650464281054177552590951871318883591476599604131796020941530858553323877253802327276329773721431279682167162344211832018028814127474431688472184593927814354740999990722332030592629766112383279833169882539312620065037028844782866694044730794710476125586583752986236250999823233597155072338383324408152577819336426263043302658958170800451278873115935587747217256494700051636672577153920984095032745112153687300912199629522765913163709396860727134269262315475330437993316581107369643142171979434056391551210810813626268885697480680601169189417502722987415869917914534994624441940121978586013736608286907223651477139126874209665137875620591854328888341742920901563133283193575622089713765630978501563154982456445865424792935722828750608481453351352181729587932991".data

/-- Fractional digits of φ at stream positions 7001..8000. -/
def dChunk7 : List Char :=
  "1710032476222052194645105362450512988430871344439507244267351462861799183233645983696376327225756915972395438305208664747423815110792734948369523964792689936983249179995027895000604596613134633630249499514808053290179029751825158750490074351879835118360327227726017174045355716588555782972910619581935171055482579307091005763586990192972179951687311755631444856481002200142545405542927345883711602099479457208237804368718944805636891825802444996318783420274910153357910727336253289069334741238022220116262771193085448502954191320040099986556665177566409536561978978183804510303565101315894589028718610869058939471368014845700183664956472032943343742989464274125514359058434840919548701523614031739139036164401984550510491211697920012019996050699496640303508636929039410070194505320162348727632327324494396304808905542513797233147518520709102506368598167953048181007394245317002388047598343234504142584314063612721096022824233782280902797659607771084939151748873168777135223900911711735091860065462009".data

/-- Fractional digits of φ at stream positions 8001..9000. -/
def dChunk8 : List Char :=
  "9024975852779254278165970383495058010626155333691093784659771052975022317307412177834418941184596586102980187787427445638669661277245038458605264151030408982577775447411533207640758816775149755380471162966777100587664615954967769270549623939857092550702740699781408431249653630718665337180605874224259816530705257383454157705429216299811491750861131176577317209561565647869547448927132060806354577946241453106698374211379816896382353330447788316933972872891810366408326985698825443851667586228993069643468489751484087903964760420361020602171739447026348763365439319522907738361673898117812424836557810503416945156362604300366574310847665487778012857792364541852244723617137422925584159313561286637167032807217155339264632573067306391085410886808574283858828060230334140855039097353872613451196292641599521278931135443146015273090255382710432596622674390374556361228613907831943357059003814870089866131539819585744233044197085669672229314273074138488278897558886079973870447020316683485694199096548029".data

/-- Fractional digits of φ at stream positions 9001..10000. -/
def dChunk9 : List Char :=
  "8249319817657926829855629723010682777235162740783807431877827318211919695280051608791572128826337968231272562870001500182929757729993579094919640763442861575713544427898383040454702710194580042582021202344580630345033658147218549203679989972935353919681213319516537974539911149424445183033858841290401817818821376006659284941367754317451605409387110368715211640405821934471204482775960541694864539878326269548013915019038995931306703186616706637196402569286713887146631189192685682691995276457997718278759460961617218868109454651578869122410609814197268619255478789926315359472922825080542516906814010781796021885330762305563816316401922454503257656739259976517530801427160714308718862859836037465057134204670083432754230277047793311183666903232885306873879907135900740304907459889513647687608678443238248218930617570319563803230819719363567274196438726258706154330729637038127515170406005057594882723856345156390526577104264594760405569509598408889037620799566388017861855915944111725092313279771138".data

/-- Fractional digits of φ at stream positions 10001..11000. -/
def dChunk10 : List Char :=
  "0329437654750901651694965099160738339377158332302457019483474000704376186719984834016318260084626196562846491182256888575213463754902541808338213835222452587267893795053759156035794546985091022562254550030175710494698334835453238352607870922193045817823060123707532806783685413065846367888664334862493680101987827996306702595432651378060073863929085648308741576187418973458484501418897652934110137221586435599155271136233220035266778591598902314461633210265196659076320615243837476190495315829688362650420948401056545891306298277172498096419594723404651104198213476893540180382569549562860392442641598674859822800603538628391662012528266074933061965849651999794193932260172357107336425370830330114336249857536359704244464759989999508550413549775585859345765909265333072527754167584314669367678061703501200384487488382337603440775159477812218830709000873866273620916607990502269892703218997603795098905910859103929673456146107003045819212738925992696106211676436424383501410204086321499178152979681522".data

/-- Fractional digits of φ at stream positions 11001..12000. -/
def dChunk11 : List Char :=
  "3798322427375365700855346997965541385905032683616022278847554706269843910885210302076860470680455684656049168649886061622295232390709809262930233795648217998163264582788887767452084637197106347892310667546935504761519778169902588184040792751090182448278705250597698375351430622445090220238243982312550584162320718831930069360646468209659500654929010971618652636721610741713618377667332797562685480124565768279031760394655539452314338756773034979157858859101166374845567584795271391860878254010423332985744274711896961048512640197504359909207662155899866073683762318835884508129295011466535482817144846405686524654090781547161962578446957526256945516560151916402921798854890937328031465192224759003096571549050536104377686877261915952844920464786897347370859841384513162119297201263424077369454598186502965923353451256845497454112981973587667072860161605620423063606613028149677344579773775055756466547525632264817711699785708712283154310456912326250349768115245217449739613674882204648051968875434196".data

/-- Fractional digits of φ at stream positions 12001..13000. -/
def dChunk12 : List Char :=
  "9511933120450216051429384844754523821270143830957855813619678302310685080845876952059053294683384904712099162556365034003439670828933698367423001575117385151269123066172276414421607512917341874714315093241924914160969998672815823859257359823894849274919646152272273338746312138436262116379467062032630225055489580573083750461299231136299173069489407342588319483999274163950984439634057635284717562762192786522539608720131080486406534396168875452534263098969517619019770963192258709342165955974471750157538376741522280570650280683143356524917199733358403064153550759115974264366482846628136802174505909705894602744292632222215459450758046571206068639904308236939693208237490767561190171561305424813311715242568478463363770015204417916501168232575236160495749706390822443444510351219048819830276001766809850965245439007199098034993026860675523879685292194732393352370086650221407464554037222343481675749373144640928379006539196774010355861936181566836616864892395554961452826472894994160615803045867891".data

/-- Fractional digits of φ at stream positions 13001..14000. -/
def dChunk13 : List Char :=
  "4619717281554511000566605424996919741027987405932764349537145251676946206985978809469501747302284142757188719409212091379940594303705043648386004346452279933029239018659226898749921132565605578401423354260589510562036907202893931592044047683592763647996005964048607619891592981949508787860276634599054042637700459008032794347206298254452563564795429924881986461361713144857734699534755771554913842392894017540341399738461694812934792422346097430196275230138286072244963809538384015265678197645075885478551554923452347816460330629388420099508032601409183025743857706710252272436669059889085450155707542303166659247235289247025886247948875462527657272851511128782706734543102445152334565422843110396795282962501936989399834739617639880957354152601453729646814738218436005210994721194165914947167052037922552096336458484680414477803021647286239992640483635087737478245016382008952403225343799257901292656401555377540917517044196272850391266959566648772429676603673034536687340490791418869452147158279081".data

/-- Fractional digits of φ at stream positions 14001..15000. -/
def dChunk14 : List Char :=
  "5723396912403998586939085517307980195554612851340891206108401221361707057043006056924685591646883477332085689141267942844804138468281325692914816010978627269686686737391711893146226913489458042778989960814470952476290501926031164920686774331866154696689660182266357878875060885624356267893279735463390418210877463803921624477202567269959639182468778845549717903851583920474831990312762243706623509251877543414010711233586590774812206376345901988422547272765529050439950252444039113658267081330058058820946031020826134136912757293699289302996173089284367031523858975398738893680744152637379424050644876417176861355234326986572897046306918017427797217388985944328485205725758833756382015054672065167425268189485167332804630764781329313260289322936604521021318981298766152624448748669389040617846991666541748508459797014617821584501491957210982508923451747451225432738681972586494458808377139868506598408545773165416917406705211194916628633773226375347566637002212032752438999773600607404270297220363477".data

/-- Fractional digits of φ at stream positions 15001..16000. -/
def dChunk15 : List Char :=
  "8048298834855189525079474605519940340110771169725644261005092059843362535847069597185762616776630211747878341975644501838041029203240408826617344339090263522350506828582854432839618480925376130820115626869907999117084755586982150310073563240421988569584200682439926953784403202222374628147659230605547476936830576549677690471159625502474507809624837449908025613750915622359081010534493941774294277091445166668700415228544638076615351141556487854936011387473103828773313388391709646174829063156788065182761765798535021665998607464012674884121130098549938337106031962506702797524310119377335548537011694674858888363080333287739571656275340367272180705622562326374148833499289970258977299224036941750743427314194157432466794578586039894075097356363688815672159676354380665593938934382075984061216064317664421902677773799145579945031468708716266226524133590569928494006372744908821635242948022566330458553636337251762049074624062938962390622030424872688432377631733574205753997574373508409657792180880089".data

/-- Fractional digits of φ at stream positions 16001..17000. -/
def dChunk16 : List Char :=
  "4205906625727823076927886564455637580126672809525273798280300766369769281648446512774738223970617385675071466927482203748811225639940752276264649946584636740195599737028383931198848223355399649783331650084674912545229565124093909637840954169012346753752801390808308630226533523870692730719846546494549791011342871546366955434374621543918865260853669743665305885621644116480689128373577943415306094784572709870379769213462059695388438267608276591817736276699187278037542199541724283357910645206137368847085451658221931586453770183134018188272510999229176147118605291765514228811235662172416926806206488453176151642729535857983754123758761004154758055957301224592767118952773338233560433742013213928043170533794636464283519930145767064918477077689598854216479733717696259439386480748936332010988936435283244941325693174383235092582864212762094734328799843871982916250358863688574408960916197675530236361478401862718277088913603989330772930602967177602584180301334754744060932182226620770598424760826379".data

/-- Fractional digits of φ at stream positions 17001..18000. -/
def dChunk17 : List Char :=
  "4138859860193520895982194188572382371427193034935451824011267104607309741268127907272643868568154472914482676138994509206409879264769257469881233464299526730823740572040614374870086704861259959017842497684584473682482794782475317633817481479957103120339634522674341512372232245462654632835356424662778646083987217912784308964163642223715282219986085060015824516947831892606016582749114277493350286550372769106810755782646334039921922260220859096784186001385965387726582624465759769406924054180444473847160790144974301805588933762376129691822923476845375955646842112269873163750624997118229148568960447252776009393434355833919516513298562364589314910186084968348033809093273626106205479597042129866988357356040434712839980124980220946685109349040787845010211768427634507913768760974690066575968304351926667656396092264884567021285074482118483610290768919649340230064175317348391475891667202306924534710762771979252499732857689038868014178031379948365108952722094659130450665665825853917469048687264990".data

/-- Fractional digits of φ at stream positions 18001..19000. -/
def dChunk18 : List Char :=
  "2546765966599164547365134259755577397348506528439977384490513905829430130008366961455669748537793407881277215791487210719258869089277878732982982214574233273265987982756950898845306240223036486347722967056524127035887830281940074980575439016285786745531327197652607107643153112391526077219362144346096089758726934223674331613718574577608117751518069662104795585140130069701845007026290479492570837120175279378554957627391245587148332010170361840521636818017341425089806160634676330850504184585816629334093479199103685913053789482158651701181210113330006695775232786685518078256752836149494920745837336845813691407977595925267273966423478746614399819648081036705066005238269165055144634711116867428177319502560642951637959659475644987891461446925936629309364804816174059808214254340525211371332408113913579971622858101419103410460569290782498956214560041045692221416830893236662517618696271719453854998551484275173369241202680159928083201458300754484742331264387808478085056104304909999364345905195187".data

/-- Fractional digits of φ at stream positions 19001..20000. -/
def dChunk19 : List Char :=
  "4948436967727574733596708833496091574474357503986020163976661142765369526704411552001939148429346010151295311744588764830703716773961542655913990830375776630213099087127198870690329304701241058615063998529981417578043034808035882032020110476070047557101694234120341089156439478253031645937304375581946867525349532301302767823535601166413111779960997936620434495696835479307543113275586431897315151710644321892497932778012649647644754670781658074061312593752718474088161154798183078167510478092914139545646311605812690517539535569157755804106719812316384052775560522722237647118832332230995850689710187175047819065334948584232597622565758418985291447178335173226029857862929434650563669321626276738162459574179326988923272206666360819924909888314685299409913867344460496708424429782436302329389103559656017399422019886902572454714016330096121461872083651086881853340606220170995158270704423370421801766963491336959960643220053288734948931359660304243808045659447433356783167270372963636759421699937952".data

/-- The 19,998 fractional digits of the 20,000-character prefix. -/
def phiDigitsList : List Char :=
  dChunk0 ++
    (dChunk1 ++
    (dChunk2 ++
    (dChunk3 ++
    (dChunk4 ++
    (dChunk5 ++
    (dChunk6 ++
    (dChunk7 ++
    (dChunk8 ++
    (dChunk9 ++
    (dChunk10 ++
    (dChunk11 ++
    (dChunk12 ++
    (dChunk13 ++
    (dChunk14 ++
    (dChunk15 ++
    (dChunk16 ++
    (dChunk17 ++
    (dChunk18 ++
    (dChunk19)))))))))))))))))))

/-- The 20,000-character prefix of the φ stream, as a verified literal. -/
def phiList : List Char := '1' :: '.' :: phiDigitsList

/-- Strict variant of the left fold of `findStep`, used to evaluate
chunk states in the kernel (the pattern match forces the accumulated
state at every step); provably equal to `List.foldl findStep`. -/
def scanRun : Option Char × ℕ → List Char → Option Char × ℕ
  | st, [] => st
  | (rc, rl), ch :: rest => scanRun (findStep (rc, rl) ch) rest

theorem findStep_run (st : Option Char × ℕ) (ch : Char) (h : ch.isDigit = true) :
    findStep st ch = if st.1 = some ch then (st.1, st.2 + 1) else (some ch, 1) := by
  obtain ⟨rc, rl⟩ := st
  simp [findStep, h]

theorem findStep_nondigit (st : Option Char × ℕ) (ch : Char) (h : ch.isDigit = false) :
    findStep st ch = (none, 0) := by
  obtain ⟨rc, rl⟩ := st
  simp [findStep, h]

/-- The branch structure of `findFirstRunAux` factors through `findStep`
as soon as `n ≥ 1` (after a non-digit the source skips the length test,
but the length is then 0 anyway). -/
theorem findFirstRunAux_cons (n : ℕ) (hn : 1 ≤ n) (st : Option Char × ℕ) (i : ℕ)
    (ch : Char) (rest : List Char) :
    findFirstRunAux n st i (ch :: rest) =
      (if (findStep st ch).2 = n then (List.replicate n ch, some ((i + 1) - (n - 1)))
       else findFirstRunAux n (findStep st ch) (i + 1) rest) := by
  obtain ⟨rc, rl⟩ := st
  by_cases hd : ch.isDigit
  · simp only [findFirstRunAux, findStep, hd]
    simp
  · simp only [findFirstRunAux, findStep, eq_false_of_ne_true hd]
    have : ¬ ((0 : ℕ) = n) := by omega
    simp [this]

theorem findStep_revState (r : List Char) (a : Char) :
    findStep (revState r) a = revState (a :: r) := by
  by_cases hd : a.isDigit
  · cases r with
    | nil => simp [revState, findStep, hd, revCount]
    | cons b r' =>
      by_cases hb : b.isDigit
      · by_cases hba : b = a
        · subst hba
          simp [revState, findStep, hd, hb, revCount]
        · simp [revState, findStep, hd, hb, revCount, hba, Ne.symm hba]
      · have hba : b ≠ a := fun h => hb (h ▸ hd)
        simp [revState, findStep, hd, eq_false_of_ne_true hb, revCount, hba]
  · cases r with
    | nil => simp [revState, findStep, eq_false_of_ne_true hd]
    | cons b r' => simp [revState, findStep, eq_false_of_ne_true hd]

/-- The run state after scanning `l` from the empty state is determined
by the reversed stream. -/
theorem foldl_findStep_eq_revState (l : List Char) :
    List.foldl findStep (none, 0) l = revState l.reverse := by
  induction l using List.reverseRecOn with
  | nil => rfl
  | append_singleton l a ih =>
    rw [List.foldl_append, List.reverse_append]
    simp only [List.foldl_cons, List.foldl_nil, ih]
    exact findStep_revState l.reverse a

theorem revCount_le_length (c : Char) (l : List Char) : revCount c l ≤ l.length := by
  induction l with
  | nil => simp [revCount]
  | cons a l ih =>
    by_cases h : a = c
    · have h1 : revCount c (a :: l) = revCount c l + 1 := by simp [revCount, h]
      rw [h1, List.length_cons]
      omega
    · simp [revCount, h]

theorem revCount_take (c : Char) (l : List Char) :
    l.take (revCount c l) = List.replicate (revCount c l) c := by
  induction l with
  | nil => simp [revCount]
  | cons a l ih =>
    by_cases h : a = c
    · subst h; simp [revCount, List.replicate_succ, ih]
    · simp [revCount, h]

theorem revCount_getElem (c : Char) (l : List Char) : l[revCount c l]? ≠ some c := by
  induction l with
  | nil => simp [revCount]
  | cons a l ih =>
    by_cases h : a = c
    · subst h; simpa [revCount] using ih
    · simp [revCount, h]

theorem revCount_eq_of (c : Char) (l : List Char) (k : ℕ)
    (h1 : l.take k = List.replicate k c) (h2 : l[k]? ≠ some c) : revCount c l = k := by
  induction l generalizing k with
  | nil =>
    have : k = 0 := by
      by_contra hk
      have : (List.replicate k c).length = 0 := by rw [← h1]; simp
      simp at this; omega
    simp [revCount, this]
  | cons a l ih =>
    cases k with
    | zero =>
      have : a ≠ c := fun h => h2 (by simp [h])
      simp [revCount, this]
    | succ k' =>
      rw [List.take_succ_cons, List.replicate_succ] at h1
      have ha : a = c := (List.cons_eq_cons.mp h1).1
      have ht : l.take k' = List.replicate k' c := (List.cons_eq_cons.mp h1).2
      have h2' : l[k']? ≠ some c := by simpa using h2
      subst ha
      simp [revCount, ih k' ht h2']

theorem findStep_snd_le (st : Option Char × ℕ) (ch : Char) :
    (findStep st ch).2 ≤ st.2 + 1 := by
  obtain ⟨rc, rl⟩ := st
  by_cases hd : ch.isDigit
  · by_cases he : rc = some ch <;> simp [findStep, hd, he]
  · simp [findStep, eq_false_of_ne_true hd]

theorem foldl_findStep_snd_le (l : List Char) :
    ∀ st : Option Char × ℕ, (List.foldl findStep st l).2 ≤ st.2 + l.length := by
  induction l with
  | nil => simp
  | cons ch rest ih =>
    intro st
    have h1 := ih (findStep st ch)
    have h2 := findStep_snd_le st ch
    simp only [List.foldl_cons, List.length_cons]
    omega

/-- If after scanning the first `j + 1` characters the run state is
`(some c, n)`, then a run of `n` copies of `c` starts at 1-based
position `j + 2 - n`. -/
theorem runReach_of_state (s : List Char) (j n : ℕ) (c : Char)
    (hj : j < s.length) (hn : 1 ≤ n)
    (hfold : List.foldl findStep (none, 0) (s.take (j + 1)) = (some c, n)) :
    n ≤ j + 1 ∧ runReach s (j + 2 - n) n c := by
  set t := s.take (j + 1) with ht
  have htl : t.length = j + 1 := by
    rw [ht, List.length_take]; omega
  rw [foldl_findStep_eq_revState] at hfold
  have htr : t.reverse ≠ [] := by
    simp only [ne_eq, List.reverse_eq_nil_iff]
    intro h
    rw [h] at htl; simp at htl
  obtain ⟨a, tail, hrev⟩ := List.exists_cons_of_ne_nil htr
  rw [hrev] at hfold
  simp only [revState] at hfold
  by_cases hd : a.isDigit
  · rw [if_pos hd] at hfold
    have ha : a = c := by
      have := congrArg Prod.fst hfold
      simpa using this
    have hcount : revCount c tail = n - 1 := by
      have := congrArg Prod.snd hfold
      simp only at this
      rw [← ha]; omega
    subst ha
    have htail_len : tail.length = j := by
      have : t.reverse.length = j + 1 := by rw [List.length_reverse, htl]
      rw [hrev] at this; simp at this; omega
    have hn_le : n ≤ j + 1 := by
      have := revCount_le_length a tail
      omega
    -- transfer an index of `tail` to an index of `s`
    have htail_elem : ∀ i, i < j → tail[i]? = t[j - 1 - i]? := by
      intro i hi
      have h1 : (a :: tail)[i + 1]? = tail[i]? := by simp
      have h2 : t.reverse[i + 1]? = t[t.length - 1 - (i + 1)]? :=
        List.getElem?_reverse (by omega)
      rw [hrev] at h2
      rw [← h1, h2, htl]
      congr 1
      omega
    have hhead : s[j]? = some a := by
      have h2 : t.reverse[0]? = t[t.length - 1 - 0]? :=
        List.getElem?_reverse (by omega)
      rw [hrev] at h2
      simp only [List.getElem?_cons_zero, htl] at h2
      have h3 : t[j]? = s[j]? := by
        rw [ht]; exact List.getElem?_take_of_lt (by omega)
      rw [← h3]
      have : j + 1 - 1 - 0 = j := by omega
      rw [this] at h2
      exact h2.symm
    refine ⟨hn_le, hd, by omega, ?_, ?_⟩
    · intro jj hjj
      have hq : j + 2 - n - 1 + jj = j + 1 - n + jj := by omega
      rw [hq]
      by_cases hlast : jj = n - 1
      · have : j + 1 - n + jj = j := by omega
        rw [this]; exact hhead
      · have hi : n - 2 - jj < n - 1 := by omega
        have hi' : n - 2 - jj < tail.length := by omega
        have e1 : tail[n - 2 - jj]? = some a := by
          have h1 : tail.take (revCount a tail) = List.replicate (revCount a tail) a :=
            revCount_take a tail
          rw [hcount] at h1
          have h2 : (tail.take (n - 1))[n - 2 - jj]? = tail[n - 2 - jj]? :=
            List.getElem?_take_of_lt hi
          rw [h1] at h2
          rw [← h2]
          exact List.getElem?_replicate_of_lt hi
        have e2 : tail[n - 2 - jj]? = t[j - 1 - (n - 2 - jj)]? :=
          htail_elem _ (by omega)
        have e3 : t[j - 1 - (n - 2 - jj)]? = s[j - 1 - (n - 2 - jj)]? := by
          rw [ht]; exact List.getElem?_take_of_lt (by omega)
        have e4 : j - 1 - (n - 2 - jj) = j + 1 - n + jj := by omega
        rw [← e4, ← e3, ← e2]
        exact e1
    · by_cases hceil : n = j + 1
      · left; omega
      · right
        have hnj : n ≤ j := by omega
        have e2 : tail[n - 1]? ≠ some a := by
          rw [← hcount]; exact revCount_getElem a tail
        intro hcontra
        apply e2
        have h1 : tail[n - 1]? = t[j - 1 - (n - 1)]? := htail_elem _ (by omega)
        have h2 : t[j - 1 - (n - 1)]? = s[j - 1 - (n - 1)]? := by
          rw [ht]; exact List.getElem?_take_of_lt (by omega)
        have h3 : j - 1 - (n - 1) = j + 2 - n - 2 := by omega
        rw [h1, h2, h3]
        exact hcontra
  · rw [if_neg (by simp [hd])] at hfold
    exact absurd (congrArg Prod.fst hfold) (by simp)

/-- Conversely, if a run of `n` copies of `c` starts at position `p`,
the scan state right after consuming position `p + n - 1` is
`(some c, n)`. -/
theorem state_of_runReach (s : List Char) (p n : ℕ) (c : Char) (hn : 1 ≤ n)
    (hr : runReach s p n c) :
    p + n - 2 < s.length ∧
      List.foldl findStep (none, 0) (s.take (p + n - 1)) = (some c, n) := by
  obtain ⟨hdig, hp, helem, hbd⟩ := hr
  have hlast : s[p + n - 2]? = some c := by
    have := helem (n - 1) (by omega)
    have he : p - 1 + (n - 1) = p + n - 2 := by omega
    rwa [he] at this
  have hlt : p + n - 2 < s.length := by
    by_contra hcon
    rw [List.getElem?_eq_none (by omega)] at hlast
    exact Option.noConfusion hlast
  refine ⟨hlt, ?_⟩
  set t := s.take (p + n - 1) with ht
  have htl : t.length = p + n - 1 := by
    rw [ht, List.length_take]; omega
  rw [foldl_findStep_eq_revState]
  have htr : t.reverse ≠ [] := by
    simp only [ne_eq, List.reverse_eq_nil_iff]
    intro h
    rw [h] at htl
    simp at htl; omega
  obtain ⟨a, tail, hrev⟩ := List.exists_cons_of_ne_nil htr
  have htail_len : tail.length = p + n - 2 := by
    have : t.reverse.length = p + n - 1 := by rw [List.length_reverse, htl]
    rw [hrev] at this; simp at this; omega
  have htail_elem : ∀ i, i < p + n - 2 → tail[i]? = s[p + n - 3 - i]? := by
    intro i hi
    have h1 : (a :: tail)[i + 1]? = tail[i]? := by simp
    have h2 : t.reverse[i + 1]? = t[t.length - 1 - (i + 1)]? :=
      List.getElem?_reverse (by omega)
    rw [hrev] at h2
    rw [← h1, h2, htl]
    have h3 : t[p + n - 1 - 1 - (i + 1)]? = s[p + n - 1 - 1 - (i + 1)]? := by
      rw [ht]; exact List.getElem?_take_of_lt (by omega)
    rw [h3]
    congr 1
    omega
  have ha : a = c := by
    have h2 : t.reverse[0]? = t[t.length - 1 - 0]? :=
      List.getElem?_reverse (by omega)
    rw [hrev] at h2
    simp only [List.getElem?_cons_zero, htl] at h2
    have h3 : t[p + n - 1 - 1 - 0]? = s[p + n - 2]? := by
      rw [ht]
      have : p + n - 1 - 1 - 0 = p + n - 2 := by omega
      rw [this]
      exact List.getElem?_take_of_lt (by omega)
    rw [h3, hlast] at h2
    exact Option.some_injective _ h2
  subst ha
  have hcount : revCount a tail = n - 1 := by
    apply revCount_eq_of
    · apply List.ext_getElem?
      intro i
      by_cases hi : i < n - 1
      · rw [List.getElem?_take_of_lt hi, List.getElem?_replicate_of_lt hi]
        have e1 : tail[i]? = s[p + n - 3 - i]? := htail_elem i (by omega)
        have e2 : p + n - 3 - i = p - 1 + (n - 2 - i) := by omega
        rw [e1, e2]
        exact helem (n - 2 - i) (by omega)
      · rw [List.getElem?_take_eq_none (by omega), List.getElem?_replicate]
        rw [if_neg hi]
    · by_cases hp1 : p = 1
      · have : tail.length ≤ n - 1 := by omega
        rw [List.getElem?_eq_none this]
        simp
      · have e1 : tail[n - 1]? = s[p + n - 3 - (n - 1)]? := htail_elem _ (by omega)
        have e2 : p + n - 3 - (n - 1) = p - 2 := by omega
        rw [e1, e2]
        rcases hbd with h | h
        · omega
        · exact h
  rw [hrev]
  simp only [revState]
  rw [if_pos hdig, hcount]
  have : n - 1 + 1 = n := by omega
  rw [this]

theorem findStep_of_snd_ne_zero (st : Option Char × ℕ) (ch : Char)
    (h : (findStep st ch).2 ≠ 0) : findStep st ch = (some ch, (findStep st ch).2) := by
  obtain ⟨rc, rl⟩ := st
  by_cases hd : ch.isDigit
  · by_cases he : rc = some ch
    · simp [findStep, hd, he]
    · simp [findStep, hd, he]
  · simp [findStep, eq_false_of_ne_true hd] at h

theorem firstHitFrom_cons (n : ℕ) (st : Option Char × ℕ) (i : ℕ) (ch : Char)
    (rest : List Char) :
    firstHitFrom n st i (ch :: rest) =
      if (findStep st ch).2 = n then some (i, ch)
      else firstHitFrom n (findStep st ch) (i + 1) rest := by
  simp only [firstHitFrom]

/-- The per-length scan of `find_first_runs` returns exactly the first
index at which the running length reaches `n` (with the character there),
or `("N/A", none)` if that never happens. -/
theorem findFirstRunAux_eq_hit (n : ℕ) (hn : 1 ≤ n) :
    ∀ (l : List Char) (st : Option Char × ℕ) (i : ℕ),
      findFirstRunAux n st i l =
        match firstHitFrom n st i l with
        | none => ("N/A".data, none)
        | some (j, c) => (List.replicate n c, some ((j + 1) - (n - 1))) := by
  intro l
  induction l with
  | nil => intro st i; simp [findFirstRunAux, firstHitFrom]
  | cons ch rest ih =>
    intro st i
    rw [findFirstRunAux_cons n hn st i ch rest, firstHitFrom_cons]
    by_cases hhit : (findStep st ch).2 = n
    · rw [if_pos hhit, if_pos hhit]
    · rw [if_neg hhit, if_neg hhit, ih]

theorem firstHitFrom_append (n : ℕ) :
    ∀ (l1 l2 : List Char) (st : Option Char × ℕ) (i : ℕ),
      firstHitFrom n st i (l1 ++ l2) =
        match firstHitFrom n st i l1 with
        | some h => some h
        | none => firstHitFrom n (List.foldl findStep st l1) (i + l1.length) l2 := by
  intro l1
  induction l1 with
  | nil => intro l2 st i; simp [firstHitFrom]
  | cons ch rest ih =>
    intro l2 st i
    rw [List.cons_append, firstHitFrom_cons, firstHitFrom_cons]
    by_cases hhit : (findStep st ch).2 = n
    · rw [if_pos hhit, if_pos hhit]
    · rw [if_neg hhit, if_neg hhit, ih]
      simp only [List.foldl_cons, List.length_cons]
      have : i + 1 + rest.length = i + (rest.length + 1) := by omega
      rw [this]

theorem foldl_findStepMax_fst :
    ∀ (l : List Char) (st : Option Char × ℕ) (m : ℕ),
      (List.foldl findStepMax (st, m) l).1 = List.foldl findStep st l := by
  intro l
  induction l with
  | nil => intro st m; rfl
  | cons ch rest ih =>
    intro st m
    simp only [List.foldl_cons, findStepMax]
    exact ih _ _

theorem foldl_findStepMax_mono :
    ∀ (l : List Char) (st : Option Char × ℕ) (m : ℕ),
      m ≤ (List.foldl findStepMax (st, m) l).2 := by
  intro l
  induction l with
  | nil => intro st m; simp
  | cons ch rest ih =>
    intro st m
    simp only [List.foldl_cons, findStepMax]
    calc m ≤ max m (findStep st ch).2 := le_max_left _ _
    _ ≤ _ := ih _ _

/-- If the running maximum of run lengths over `l` starting from state
`st` stays below `n`, the scan never reaches length `n` inside `l`. -/
theorem firstHitFrom_none_of_max_lt (n : ℕ) :
    ∀ (l : List Char) (st : Option Char × ℕ) (m i : ℕ),
      (List.foldl findStepMax (st, m) l).2 < n → firstHitFrom n st i l = none := by
  intro l
  induction l with
  | nil => intro st m i _; rfl
  | cons ch rest ih =>
    intro st m i hmax
    simp only [List.foldl_cons, findStepMax] at hmax
    have hle : max m (findStep st ch).2 ≤
        (List.foldl findStepMax (findStep st ch, max m (findStep st ch).2) rest).2 :=
      foldl_findStepMax_mono _ _ _
    rw [firstHitFrom_cons, if_neg (by omega)]
    exact ih _ _ _ hmax

/-- Soundness of `firstHitFrom` relative to the stream: a hit `(j, c)`
found while scanning the suffix `l` after a prefix `pre` marks the first
index at or after `pre.length` where the run length reaches `n`, and the
state there is `(some c, n)`. -/
theorem firstHitFrom_sound (n : ℕ) (hn : 1 ≤ n) :
    ∀ (l pre : List Char) (j : ℕ) (c : Char),
      firstHitFrom n (List.foldl findStep (none, 0) pre) pre.length l = some (j, c) →
      pre.length ≤ j ∧ j < pre.length + l.length ∧
        List.foldl findStep (none, 0) ((pre ++ l).take (j + 1)) = (some c, n) ∧
        ∀ j', pre.length ≤ j' → j' < j →
          (List.foldl findStep (none, 0) ((pre ++ l).take (j' + 1))).2 ≠ n := by
  intro l
  induction l with
  | nil => intro pre j c h; exact absurd h (by simp [firstHitFrom])
  | cons ch rest ih =>
    intro pre j c h
    have hst' : findStep (List.foldl findStep (none, 0) pre) ch =
        List.foldl findStep (none, 0) (pre ++ [ch]) := by
      rw [List.foldl_append]; rfl
    rw [firstHitFrom_cons] at h
    by_cases hhit : (findStep (List.foldl findStep (none, 0) pre) ch).2 = n
    · rw [if_pos hhit] at h
      injection h with h3
      injection h3 with hj hc
      subst hj; subst hc
      have htake : (pre ++ ch :: rest).take (pre.length + 1) = pre ++ [ch] := by
        have h1 : pre.length + 1 = pre.length + 1 := rfl
        have := @List.take_append Char pre (ch :: rest) 1
        simpa using this
      refine ⟨le_refl _, by simp, ?_, ?_⟩
      · rw [htake, ← hst']
        have hne : (findStep (List.foldl findStep (none, 0) pre) ch).2 ≠ 0 := by omega
        rw [findStep_of_snd_ne_zero _ _ hne, hhit]
      · intro j' h1 h2; omega
    · rw [if_neg hhit] at h
      have hlen : (pre ++ [ch]).length = pre.length + 1 := by simp
      have h' : firstHitFrom n (List.foldl findStep (none, 0) (pre ++ [ch]))
          (pre ++ [ch]).length rest = some (j, c) := by
        rw [hlen, ← hst']; exact h
      obtain ⟨ih1, ih2, ih3, ih4⟩ := ih (pre ++ [ch]) j c h'
      rw [hlen] at ih1 ih2 ih4
      have happ : (pre ++ [ch]) ++ rest = pre ++ ch :: rest := by
        rw [List.append_assoc, List.singleton_append]
      rw [happ] at ih3 ih4
      refine ⟨by omega, by simp; omega, ih3, ?_⟩
      intro j' hj1 hj2
      rcases Nat.eq_or_lt_of_le hj1 with heq | hlt
      · have htake : (pre ++ ch :: rest).take (pre.length + 1) = pre ++ [ch] := by
          have := @List.take_append Char pre (ch :: rest) 1
          simpa using this
        rw [← heq, htake, ← hst']
        exact hhit
      · exact ih4 j' hlt hj2

/-- Completeness: if `firstHitFrom` reports no hit on the suffix `l`,
the run length never reaches `n` at any index covered by `l`. -/
theorem firstHitFrom_none_sound (n : ℕ) :
    ∀ (l pre : List Char),
      firstHitFrom n (List.foldl findStep (none, 0) pre) pre.length l = none →
      ∀ j', pre.length ≤ j' → j' < pre.length + l.length →
        (List.foldl findStep (none, 0) ((pre ++ l).take (j' + 1))).2 ≠ n := by
  intro l
  induction l with
  | nil => intro pre _ j' h1 h2; simp at h2; omega
  | cons ch rest ih =>
    intro pre h j' hj1 hj2
    have hst' : findStep (List.foldl findStep (none, 0) pre) ch =
        List.foldl findStep (none, 0) (pre ++ [ch]) := by
      rw [List.foldl_append]; rfl
    rw [firstHitFrom_cons] at h
    by_cases hhit : (findStep (List.foldl findStep (none, 0) pre) ch).2 = n
    · rw [if_pos hhit] at h; exact absurd h (by simp)
    · rw [if_neg hhit] at h
      have hlen : (pre ++ [ch]).length = pre.length + 1 := by simp
      have h' : firstHitFrom n (List.foldl findStep (none, 0) (pre ++ [ch]))
          (pre ++ [ch]).length rest = none := by
        rw [hlen, ← hst']; exact h
      have happ : (pre ++ [ch]) ++ rest = pre ++ ch :: rest := by
        rw [List.append_assoc, List.singleton_append]
      rcases Nat.eq_or_lt_of_le hj1 with heq | hlt
      · have htake : (pre ++ ch :: rest).take (pre.length + 1) = pre ++ [ch] := by
          have := @List.take_append Char pre (ch :: rest) 1
          simpa using this
        rw [← heq, htake, ← hst']
        exact hhit
      · have hj2' : j' < pre.length + rest.length + 1 := by
          simp only [List.length_cons] at hj2; omega
        have := ih (pre ++ [ch]) h' j' (by simp; omega) (by simp; omega)
        rw [happ] at this
        exact this

theorem decimalPhiFormat_length (p : ℕ) (hp : 1 ≤ p) :
    (decimalPhiFormat p).length = p + 1 := by
  simp only [decimalPhiFormat, List.length_cons, List.length_map, List.length_range]
  omega

/-- Working precision `N + 50` already yields `N + 51 ≥ N` characters, so
the retry loop of `get_phi_prefix` exits on its first test and the
function returns the first `N` characters of the first attempt. -/
theorem get_phi_prefix_eq_take (N : ℕ) :
    get_phi_prefix N = (decimalPhiFormat (N + 50)).take N := by
  cases N with
  | zero => rfl
  | succ k =>
    show getPhiLoop (k + 1) (k + 1) (k + 1 + 50) = _
    rw [getPhiLoop]
    simp only [decimalPhiFormat_length (k + 1 + 50) (by omega)]
    rw [if_neg (by omega)]

theorem get_phi_prefix_eq_map (N : ℕ) (hN : 2 ≤ N) :
    get_phi_prefix N =
      '1' :: '.' :: (List.range (N - 2)).map (fun i => digitChar (phiFracDigit (i + 1))) := by
  rw [get_phi_prefix_eq_take]
  obtain ⟨M, rfl⟩ : ∃ M, N = M + 2 := ⟨N - 2, by omega⟩
  unfold decimalPhiFormat
  rw [show M + 2 = (M + 1) + 1 from rfl, List.take_succ_cons, List.take_succ_cons]
  congr 1
  congr 1
  rw [← List.map_take, List.take_range]
  congr 2
  omega

theorem div_two_k (a k r : ℕ) (hk : 0 < k) (hr : r < k) :
    (k * a + r) / (2 * k) = a / 2 := by
  rcases Nat.even_or_odd a with ⟨b, hb⟩ | ⟨b, hb⟩
  · subst hb
    have h1 : k * (b + b) + r = 2 * k * b + r := by ring
    rw [h1, Nat.mul_add_div (by omega)]
    have h2 : r / (2 * k) = 0 := Nat.div_eq_of_lt (by omega)
    omega
  · subst hb
    have h1 : k * (2 * b + 1) + r = 2 * k * b + (k + r) := by ring
    rw [h1, Nat.mul_add_div (by omega)]
    have h2 : (k + r) / (2 * k) = 0 := Nat.div_eq_of_lt (by omega)
    omega

/-- Dividing the integer square root of `a·k²` by `k` gives the integer
square root of `a`: truncating a decimal square root to fewer digits is
consistent. -/
theorem sqrt_mul_sq_div (a k : ℕ) (hk : 0 < k) :
    Nat.sqrt (a * (k * k)) / k = Nat.sqrt a := by
  set S := Nat.sqrt (a * (k * k)) with hS
  set q := S / k with hq
  have hqk : q * k ≤ S := Nat.div_mul_le_self S k
  have h1 : q * q ≤ a := by
    have hs1 : S * S ≤ a * (k * k) := Nat.sqrt_le _
    have h2 : (q * k) * (q * k) ≤ S * S :=
      Nat.mul_le_mul hqk hqk
    have h3 : (q * q) * (k * k) ≤ a * (k * k) := by
      calc (q * q) * (k * k) = (q * k) * (q * k) := by ring
      _ ≤ S * S := h2
      _ ≤ a * (k * k) := hs1
    exact Nat.le_of_mul_le_mul_right h3 (by positivity)
  have h4 : S < k * (q + 1) := by
    have hdm : k * (S / k) + S % k = S := Nat.div_add_mod S k
    have hml : S % k < k := Nat.mod_lt S hk
    have : S < k * (S / k) + k := by omega
    calc S < k * q + k := by rw [hq]; exact this
    _ = k * (q + 1) := by ring
  have h5 : a < (q + 1) * (q + 1) := by
    have hs2 : a * (k * k) < (S + 1) * (S + 1) := Nat.lt_succ_sqrt _
    have h6 : S + 1 ≤ k * (q + 1) := h4
    have h7 : (S + 1) * (S + 1) ≤ (k * (q + 1)) * (k * (q + 1)) :=
      Nat.mul_le_mul h6 h6
    have h8 : a * (k * k) < ((q + 1) * (q + 1)) * (k * k) := by
      calc a * (k * k) < (S + 1) * (S + 1) := hs2
      _ ≤ (k * (q + 1)) * (k * (q + 1)) := h7
      _ = ((q + 1) * (q + 1)) * (k * k) := by ring
    exact Nat.lt_of_mul_lt_mul_right h8
  exact Nat.eq_sqrt.mpr ⟨h1, h5⟩

/-- Truncation consistency of `phiFloor`: discarding the last `m - j`
digits of `⌊φ·10^m⌋` gives `⌊φ·10^j⌋`. -/
theorem phiFloor_div (j m : ℕ) (hj : j ≤ m) :
    phiFloor m / 10 ^ (m - j) = phiFloor j := by
  set k := 10 ^ (m - j) with hkdef
  have hk : 0 < k := by positivity
  have hsplit : 5 * 10 ^ (2 * m) = (5 * 10 ^ (2 * j)) * (k * k) := by
    rw [hkdef]
    have h2 : 2 * m = 2 * j + ((m - j) + (m - j)) := by omega
    rw [h2, pow_add, pow_add]
    ring
  have hSdiv : Nat.sqrt (5 * 10 ^ (2 * m)) / k = Nat.sqrt (5 * 10 ^ (2 * j)) := by
    rw [hsplit]
    exact sqrt_mul_sq_div _ k hk
  unfold phiFloor
  rw [Nat.div_div_eq_div_mul]
  have hm : (10 : ℕ) ^ m = k * 10 ^ j := by
    rw [hkdef, ← pow_add]
    congr 1
    omega
  have hdm : k * (Nat.sqrt (5 * 10 ^ (2 * m)) / k) + Nat.sqrt (5 * 10 ^ (2 * m)) % k =
      Nat.sqrt (5 * 10 ^ (2 * m)) := Nat.div_add_mod _ k
  rw [hSdiv] at hdm
  have hsum : 10 ^ m + Nat.sqrt (5 * 10 ^ (2 * m)) =
      k * (10 ^ j + Nat.sqrt (5 * 10 ^ (2 * j))) + Nat.sqrt (5 * 10 ^ (2 * m)) % k := by
    have hexp : k * (10 ^ j + Nat.sqrt (5 * 10 ^ (2 * j))) + Nat.sqrt (5 * 10 ^ (2 * m)) % k =
        k * 10 ^ j + (k * Nat.sqrt (5 * 10 ^ (2 * j)) + Nat.sqrt (5 * 10 ^ (2 * m)) % k) := by
      ring
    rw [hexp, hdm, ← hm]
  rw [hsum, div_two_k _ k _ hk (Nat.mod_lt _ hk)]

theorem phiFracDigit_lt (j : ℕ) : phiFracDigit j < 10 :=
  Nat.mod_lt _ (by norm_num)

theorem digitChar_isDigit (d : ℕ) (hd : d < 10) : (digitChar d).isDigit = true := by
  interval_cases d <;> decide

theorem digitChar_ne_dot (d : ℕ) (hd : d < 10) : digitChar d ≠ '.' := by
  interval_cases d <;> decide

theorem runUpdate_eq (rc : Option Char) (rl : ℕ) (ch : Char) (hd : ch.isDigit = true) :
    (match rc with
     | none => (some ch, 1)
     | some c => if ch = c then (some c, rl + 1) else (some ch, 1)) = findStep (rc, rl) ch := by
  cases rc with
  | none => simp [findStep, hd]
  | some c =>
    by_cases hcc : ch = c
    · subst hcc; simp [findStep, hd]
    · have hcc' : ¬ (c = ch) := fun h => hcc h.symm
      simp [findStep, hd, hcc, hcc']

theorem coStep_digit (st : CoState) (ch : Char) (hd : ch.isDigit = true) :
    coStep st ch =
      (if (findStep (st.run_char, st.run_len) ch).2 ∈ st.remaining then
        { total_pos := st.total_pos + 1,
          run_char := (findStep (st.run_char, st.run_len) ch).1,
          run_len := (findStep (st.run_char, st.run_len) ch).2,
          remaining := st.remaining.erase (findStep (st.run_char, st.run_len) ch).2,
          events := st.events ++
            [((findStep (st.run_char, st.run_len) ch).2,
              List.replicate (findStep (st.run_char, st.run_len) ch).2 ch,
              st.total_pos + 1 - (findStep (st.run_char, st.run_len) ch).2 + 1)] }
      else
        { total_pos := st.total_pos + 1,
          run_char := (findStep (st.run_char, st.run_len) ch).1,
          run_len := (findStep (st.run_char, st.run_len) ch).2,
          remaining := st.remaining, events := st.events }) := by
  unfold coStep
  rw [if_neg (by simp [hd])]
  rw [← runUpdate_eq st.run_char st.run_len ch hd]

theorem coStep_nondigit (st : CoState) (ch : Char) (hd : ch.isDigit = false) :
    coStep st ch =
      { st with total_pos := st.total_pos + 1, run_char := none, run_len := 0 } := by
  unfold coStep
  rw [if_pos (by simp [hd])]

theorem coStep_total_pos (st : CoState) (ch : Char) :
    (coStep st ch).total_pos = st.total_pos + 1 := by
  by_cases hd : ch.isDigit
  · rw [coStep_digit st ch hd]
    split <;> rfl
  · rw [coStep_nondigit st ch (eq_false_of_ne_true hd)]

theorem coStep_run (st : CoState) (ch : Char) :
    ((coStep st ch).run_char, (coStep st ch).run_len) =
      findStep (st.run_char, st.run_len) ch := by
  by_cases hd : ch.isDigit
  · rw [coStep_digit st ch hd]
    split <;> rfl
  · rw [coStep_nondigit st ch (eq_false_of_ne_true hd)]
    rw [findStep_nondigit _ _ (eq_false_of_ne_true hd)]

theorem liveStep_digit (st : CoState) (ch : Char) (hd : ch.isDigit = true) :
    liveStep st ch =
      { st with
          total_pos := st.total_pos + 1,
          run_char := (findStep (st.run_char, st.run_len) ch).1,
          run_len := (findStep (st.run_char, st.run_len) ch).2 } := by
  unfold liveStep
  rw [if_neg (by simp [hd])]
  rw [← runUpdate_eq st.run_char st.run_len ch hd]

theorem liveStep_nondigit (st : CoState) (ch : Char) (hd : ch.isDigit = false) :
    liveStep st ch =
      { st with total_pos := st.total_pos + 1, run_char := none, run_len := 0 } := by
  unfold liveStep
  rw [if_pos (by simp [hd])]

theorem liveStep_total_pos (st : CoState) (ch : Char) :
    (liveStep st ch).total_pos = st.total_pos + 1 := by
  by_cases hd : ch.isDigit
  · rw [liveStep_digit st ch hd]
  · rw [liveStep_nondigit st ch (eq_false_of_ne_true hd)]

theorem liveStep_run (st : CoState) (ch : Char) :
    ((liveStep st ch).run_char, (liveStep st ch).run_len) =
      findStep (st.run_char, st.run_len) ch := by
  by_cases hd : ch.isDigit
  · rw [liveStep_digit st ch hd]
  · rw [liveStep_nondigit st ch (eq_false_of_ne_true hd)]
    rw [findStep_nondigit _ _ (eq_false_of_ne_true hd)]

theorem liveStep_events (st : CoState) (ch : Char) :
    (liveStep st ch).events = st.events := by
  unfold liveStep
  by_cases hd : ch.isDigit
  · rw [if_neg (by simp [hd])]
  · rw [if_pos (by simp [eq_false_of_ne_true hd])]

theorem liveStep_remaining (st : CoState) (ch : Char) :
    (liveStep st ch).remaining = st.remaining := by
  unfold liveStep
  by_cases hd : ch.isDigit
  · rw [if_neg (by simp [hd])]
  · rw [if_pos (by simp [eq_false_of_ne_true hd])]

/-- Reformulation of `firstHitFrom` over a stream extended by one
character. -/
theorem firstHit_snoc (n : ℕ) (pre : List Char) (ch : Char) :
    firstHitFrom n (none, 0) 0 (pre ++ [ch]) =
      match firstHitFrom n (none, 0) 0 pre with
      | some x => some x
      | none =>
        if (findStep (List.foldl findStep (none, 0) pre) ch).2 = n
        then some (pre.length, ch) else none := by
  rw [firstHitFrom_append]
  cases firstHitFrom n (none, 0) 0 pre with
  | some x => rfl
  | none =>
    simp only [Nat.zero_add]
    rw [firstHitFrom_cons]
    by_cases hhit : (findStep (List.foldl findStep (none, 0) pre) ch).2 = n
    · rw [if_pos hhit, if_pos hhit]
    · rw [if_neg hhit, if_neg hhit]
      rfl

/-- Invariant tying the batch-phase loop state of `curses_main` after
consuming `pre` to the per-length scans of `find_first_runs`. -/
def BatchInv (pre : List Char) (st : CoState) : Prop :=
  st.total_pos = pre.length ∧
  st.run_char = (List.foldl findStep (none, 0) pre).1 ∧
  st.run_len = (List.foldl findStep (none, 0) pre).2 ∧
  st.remaining.Nodup ∧
  (∀ n, n ∈ st.remaining → 2 ≤ n ∧ n ≤ 9) ∧
  (∀ n, 2 ≤ n → n ≤ 9 →
    (n ∈ st.remaining ↔ firstHitFrom n (none, 0) 0 pre = none) ∧
    eventFor st n =
      (match firstHitFrom n (none, 0) 0 pre with
       | none => none
       | some (j, c) => some (List.replicate n c, (j + 1) - (n - 1))))

theorem firstHit_snoc_some (n : ℕ) (pre : List Char) (ch : Char) (x : ℕ × Char)
    (h : firstHitFrom n (none, 0) 0 pre = some x) :
    firstHitFrom n (none, 0) 0 (pre ++ [ch]) = some x := by
  rw [firstHit_snoc, h]

theorem firstHit_snoc_none (n : ℕ) (pre : List Char) (ch : Char)
    (h : firstHitFrom n (none, 0) 0 pre = none) :
    firstHitFrom n (none, 0) 0 (pre ++ [ch]) =
      if (findStep (List.foldl findStep (none, 0) pre) ch).2 = n
      then some (pre.length, ch) else none := by
  rw [firstHit_snoc, h]

theorem batchInv_init : BatchInv [] coInit := by
  refine ⟨rfl, rfl, rfl, by decide, ?_, ?_⟩
  · intro n hn
    simp only [coInit, List.mem_cons, List.not_mem_nil, or_false] at hn
    omega
  · intro n h2 h9
    refine ⟨⟨fun _ => rfl, fun _ => ?_⟩, rfl⟩
    simp only [coInit, List.mem_cons, List.not_mem_nil, or_false]
    omega

theorem find?_events_append (evs : List (ℕ × List Char × ℕ)) (e : ℕ × List Char × ℕ)
    (n : ℕ) :
    (evs ++ [e]).find? (fun x => x.1 == n) =
      ((evs.find? (fun x => x.1 == n)).or (if e.1 = n then some e else none)) := by
  rw [List.find?_append]
  congr 1
  rw [List.find?_singleton]
  by_cases he : e.1 = n
  · rw [if_pos he, if_pos (by simp [he])]
  · rw [if_neg he, if_neg (by simp [he])]

theorem batchInv_step (pre : List Char) (st : CoState) (ch : Char)
    (h : BatchInv pre st) : BatchInv (pre ++ [ch]) (coStep st ch) := by
  obtain ⟨hpos, hrc, hrl, hnd, hsub, hmain⟩ := h
  have hfold' : List.foldl findStep (none, 0) (pre ++ [ch]) =
      findStep (List.foldl findStep (none, 0) pre) ch := by
    rw [List.foldl_append]; rfl
  have hrunpair : (st.run_char, st.run_len) = List.foldl findStep (none, 0) pre := by
    rw [hrc, hrl]
  by_cases hd : ch.isDigit
  · -- digit character
    have hstep := coStep_digit st ch hd
    set st' := findStep (st.run_char, st.run_len) ch with hstdef
    have hsty : findStep (List.foldl findStep (none, 0) pre) ch = st' := by
      rw [hstdef, hrunpair]
    have hst'fold : List.foldl findStep (none, 0) (pre ++ [ch]) = st' := by
      rw [hfold', hsty]
    have hbound : st'.2 ≤ pre.length + 1 := by
      have h1 := findStep_snd_le (st.run_char, st.run_len) ch
      have h2 := foldl_findStep_snd_le pre (none, 0)
      rw [← hstdef] at h1
      simp only at h1 h2
      omega
    by_cases hm : st'.2 ∈ st.remaining
    · -- a milestone event is recorded for the new run length
      rw [hstep, if_pos hm]
      obtain ⟨hm2, hm9⟩ := hsub _ hm
      have hm_hit : firstHitFrom st'.2 (none, 0) 0 pre = none :=
        ((hmain st'.2 hm2 hm9).1).mp hm
      have hm_ev : st.events.find? (fun x => x.1 == st'.2) = none := by
        apply Option.map_eq_none'.mp
        show (st.events.find? (fun x => x.1 == st'.2)).map (fun e => e.2) = none
        have hev := (hmain st'.2 hm2 hm9).2
        rw [hm_hit] at hev
        exact hev
      refine ⟨by simp [hpos], by rw [hst'fold], by rw [hst'fold],
              hnd.erase _, ?_, ?_⟩
      · intro n hn
        exact hsub n (List.mem_of_mem_erase hn)
      · intro n h2 h9
        by_cases hnm : n = st'.2
        · subst hnm
          refine ⟨?_, ?_⟩
          · rw [firstHit_snoc_none _ _ _ hm_hit, hsty, if_pos rfl]
            constructor
            · intro hmem
              exact absurd hmem hnd.not_mem_erase
            · intro hnone
              exact absurd hnone (by simp)
          · rw [firstHit_snoc_none _ _ _ hm_hit, hsty, if_pos rfl]
            simp [eventFor, find?_events_append, hm_ev, hpos]
            omega
        · have hrem_iff := (hmain n h2 h9).1
          have hev_eq := (hmain n h2 h9).2
          have hev_new : eventFor
              { total_pos := st.total_pos + 1, run_char := st'.1, run_len := st'.2,
                remaining := st.remaining.erase st'.2,
                events := st.events ++
                  [(st'.2, List.replicate st'.2 ch, st.total_pos + 1 - st'.2 + 1)] } n =
              eventFor st n := by
            simp only [eventFor, find?_events_append]
            rw [if_neg (fun hh => hnm hh.symm), Option.or_none]
          cases hprior : firstHitFrom n (none, 0) 0 pre with
          | some x =>
            rw [hprior] at hrem_iff hev_eq
            refine ⟨?_, ?_⟩
            · rw [firstHit_snoc_some _ _ _ _ hprior]
              simp only [List.mem_erase_of_ne hnm]
              rw [hrem_iff]
            · rw [firstHit_snoc_some _ _ _ _ hprior, hev_new, hev_eq]
          | none =>
            rw [hprior] at hrem_iff hev_eq
            refine ⟨?_, ?_⟩
            · rw [firstHit_snoc_none _ _ _ hprior, hsty,
                if_neg (fun hh => hnm hh.symm)]
              simp only [List.mem_erase_of_ne hnm]
              simpa using hrem_iff
            · rw [firstHit_snoc_none _ _ _ hprior, hsty,
                if_neg (fun hh => hnm hh.symm), hev_new, hev_eq]
    · -- no event recorded this step
      rw [hstep, if_neg hm]
      refine ⟨by simp [hpos], by rw [hst'fold], by rw [hst'fold], hnd, hsub, ?_⟩
      intro n h2 h9
      have hrem_iff := (hmain n h2 h9).1
      have hev_eq := (hmain n h2 h9).2
      have hev_new : eventFor
          { total_pos := st.total_pos + 1, run_char := st'.1, run_len := st'.2,
            remaining := st.remaining, events := st.events } n = eventFor st n := by
        simp only [eventFor]
      cases hprior : firstHitFrom n (none, 0) 0 pre with
      | some x =>
        rw [hprior] at hrem_iff hev_eq
        refine ⟨?_, ?_⟩
        · rw [firstHit_snoc_some _ _ _ _ hprior]
          rw [hrem_iff]
        · rw [firstHit_snoc_some _ _ _ _ hprior, hev_new, hev_eq]
      | none =>
        rw [hprior] at hrem_iff hev_eq
        have hne : st'.2 ≠ n := by
          intro heq
          exact hm (heq ▸ hrem_iff.mpr rfl)
        refine ⟨?_, ?_⟩
        · rw [firstHit_snoc_none _ _ _ hprior, hsty, if_neg hne]
          exact hrem_iff
        · rw [firstHit_snoc_none _ _ _ hprior, hsty, if_neg hne, hev_new, hev_eq]
  · -- non-digit character: run reset, nothing recorded
    have hstep := coStep_nondigit st ch (eq_false_of_ne_true hd)
    have hstz : findStep (List.foldl findStep (none, 0) pre) ch = (none, 0) :=
      findStep_nondigit _ _ (eq_false_of_ne_true hd)
    have hstz2 : (findStep (List.foldl findStep (none, 0) pre) ch).2 = 0 := by
      rw [hstz]
    rw [hstep]
    refine ⟨by simp [hpos], by rw [hfold', hstz], by rw [hfold', hstz], hnd, hsub, ?_⟩
    intro n h2 h9
    have hrem_iff := (hmain n h2 h9).1
    have hev_eq := (hmain n h2 h9).2
    have hev_new : eventFor
        { st with
            total_pos := st.total_pos + 1, run_char := none, run_len := 0 } n =
        eventFor st n := by
      simp only [eventFor]
    cases hprior : firstHitFrom n (none, 0) 0 pre with
    | some x =>
      rw [hprior] at hrem_iff hev_eq
      refine ⟨?_, ?_⟩
      · rw [firstHit_snoc_some _ _ _ _ hprior, hrem_iff]
      · rw [firstHit_snoc_some _ _ _ _ hprior, hev_new, hev_eq]
    | none =>
      rw [hprior] at hrem_iff hev_eq
      refine ⟨?_, ?_⟩
      · rw [firstHit_snoc_none _ _ _ hprior, hstz2, if_neg (by omega)]
        exact hrem_iff
      · rw [firstHit_snoc_none _ _ _ hprior, hstz2, if_neg (by omega), hev_new, hev_eq]

theorem batchInv_fold :
    ∀ (l pre : List Char) (st : CoState), BatchInv pre st →
      BatchInv (pre ++ l) (List.foldl coStep st l) := by
  intro l
  induction l with
  | nil => intro pre st h; simpa using h
  | cons ch rest ih =>
    intro pre st h
    have h1 := batchInv_step pre st ch h
    have h2 := ih (pre ++ [ch]) (coStep st ch) h1
    rw [List.append_assoc, List.singleton_append] at h2
    simpa using h2

theorem batch_eventFor (s : List Char) (n : ℕ) (h2 : 2 ≤ n) (h9 : n ≤ 9) :
    eventFor (List.foldl coStep coInit s) n =
      (match firstHitFrom n (none, 0) 0 s with
       | none => none
       | some (j, c) => some (List.replicate n c, (j + 1) - (n - 1))) := by
  have h := batchInv_fold s [] coInit batchInv_init
  rw [List.nil_append] at h
  exact (h.2.2.2.2.2 n h2 h9).2

theorem find_first_runs_eq_hit (s : List Char) (n : ℕ) (hn : 1 ≤ n) :
    find_first_runs s n =
      match firstHitFrom n (none, 0) 0 s with
      | none => ("N/A".data, none)
      | some (j, c) => (List.replicate n c, some ((j + 1) - (n - 1))) :=
  findFirstRunAux_eq_hit n hn s (none, 0) 0

theorem live_run_agree (l : List Char) :
    ∀ (st1 st2 : CoState),
      st1.total_pos = st2.total_pos → st1.run_char = st2.run_char →
      st1.run_len = st2.run_len →
      (List.foldl liveStep st1 l).total_pos = (List.foldl coStep st2 l).total_pos ∧
      (List.foldl liveStep st1 l).run_char = (List.foldl coStep st2 l).run_char ∧
      (List.foldl liveStep st1 l).run_len = (List.foldl coStep st2 l).run_len := by
  induction l with
  | nil => intro st1 st2 h1 h2 h3; exact ⟨h1, h2, h3⟩
  | cons ch rest ih =>
    intro st1 st2 h1 h2 h3
    simp only [List.foldl_cons]
    apply ih
    · rw [liveStep_total_pos, coStep_total_pos, h1]
    · have hl := liveStep_run st1 ch
      have hc := coStep_run st2 ch
      rw [h2, h3] at hl
      have := hl.trans hc.symm
      exact congrArg Prod.fst this
    · have hl := liveStep_run st1 ch
      have hc := coStep_run st2 ch
      rw [h2, h3] at hl
      have := hl.trans hc.symm
      exact congrArg Prod.snd this

theorem live_events_remaining (l : List Char) :
    ∀ st : CoState,
      (List.foldl liveStep st l).events = st.events ∧
      (List.foldl liveStep st l).remaining = st.remaining := by
  induction l with
  | nil => intro st; exact ⟨rfl, rfl⟩
  | cons ch rest ih =>
    intro st
    simp only [List.foldl_cons]
    obtain ⟨h1, h2⟩ := ih (liveStep st ch)
    rw [h1, h2, liveStep_events, liveStep_remaining]
    exact ⟨rfl, rfl⟩

/-- Characterisation of a recorded first-run entry: the recorded pair
marks the earliest position where a run reaches length `n`. -/
theorem find_first_runs_some_charact (s : List Char) (n : ℕ) (hn : 2 ≤ n)
    (seq : List Char) (p : ℕ)
    (hfind : find_first_runs s n = (seq, some p)) :
    ∃ c, seq = List.replicate n c ∧ runReach s p n c ∧
      ∀ q c', runReach s q n c' → p ≤ q := by
  rw [find_first_runs_eq_hit s n (by omega)] at hfind
  cases hhit : firstHitFrom n (none, 0) 0 s with
  | none =>
    rw [hhit] at hfind
    have := congrArg Prod.snd hfind
    simp at this
  | some x =>
    obtain ⟨j, c⟩ := x
    rw [hhit] at hfind
    have hseq : seq = List.replicate n c := (congrArg Prod.fst hfind).symm
    have hp' : some ((j + 1) - (n - 1)) = some p := congrArg Prod.snd hfind
    have hp : p = (j + 1) - (n - 1) := (Option.some_injective _ hp').symm
    have hhit0 : firstHitFrom n (List.foldl findStep (none, 0) []) (List.length ([] : List Char)) s
        = some (j, c) := by simpa using hhit
    obtain ⟨_, hjlen, hstate, hmin⟩ := firstHitFrom_sound n (by omega) s [] j c hhit0
    simp only [List.nil_append, List.length_nil, Nat.zero_add] at hjlen hstate hmin
    obtain ⟨hnle, hreach⟩ :=
      runReach_of_state s j n c (by omega) (by omega) hstate
    have hpval : p = j + 2 - n := by omega
    refine ⟨c, hseq, hpval ▸ hreach, ?_⟩
    intro q c' hrr
    have hq1 : 1 ≤ q := hrr.2.1
    obtain ⟨hqlt, hqstate⟩ := state_of_runReach s q n c' (by omega) hrr
    by_contra hlt
    push_neg at hlt
    apply hmin (q + n - 2) (by omega) (by omega)
    have heq : q + n - 2 + 1 = q + n - 1 := by omega
    rw [heq, hqstate]

theorem genPrinted_eq (m : ℕ) : genPrinted m = 11 * m := by
  induction m with
  | zero => rfl
  | succ k ih =>
    show max (genPrinted k) ((decimalPhiFormat (genPrinted k + 10)).length) = 11 * (k + 1)
    rw [ih, decimalPhiFormat_length _ (by omega)]
    omega

theorem streamChar_ne_dot (p : ℕ) (hp : 3 ≤ p) : streamChar p ≠ '.' := by
  unfold streamChar
  rw [if_neg (by omega), if_neg (by omega)]
  exact digitChar_ne_dot _ (phiFracDigit_lt _)

/-- C1: the claim that the `k`-th character yielded by the live-phase
generator `phi_digit_generator` is the character at stream position
`100000 + k` is false on the code: the generator starts with
`printed = 0` and so re-emits the stream from position 1.  Already its
second yield is the decimal point (stream position 2), while the
character at position 100002 is a fractional digit. -/
theorem live_generator_not_continuous :
    ¬ (∀ k, 1 ≤ k →
        phi_digit_generator_char (k - 1) = streamChar (100000 + k)) := by
  intro h
  have h2 := h 2 (by omega)
  norm_num at h2
  have e1 : phi_digit_generator_char 1 = '.' := rfl
  rw [e1] at h2
  exact streamChar_ne_dot 100002 (by omega) h2.symm

/-- C2 counterexample: on the stream `"1.333"` the scanner records, for
`n = 2`, the pair `("33", 3)`, but those two characters are a proper
prefix of the longer run `"333"` (the next character is again `'3'`),
contradicting the claim that the recorded characters form a maximal run
of exactly length `n`. -/
theorem first_run_maximality_cex :
    find_first_runs "1.333".data 2 = ("33".data, some 3) ∧
    "33".data = List.replicate 2 '3' ∧
    "1.333".data[3 + 2 - 1]? = some '3' := by
  decide

/-- C2 (amended): the entry the scanner records for `n` (when set)
identifies the first position where some run reaches length `n`: the
recorded characters are `n` copies of one digit starting a run at the
recorded position, and no run of length at least `n` starts at any
earlier position.  (The recorded characters may be a proper prefix of a
longer run.) -/
theorem first_run_records_first_reach (s : List Char) (n : ℕ)
    (hn : 2 ≤ n) (_hn9 : n ≤ 9) (seq : List Char) (p : ℕ)
    (h : find_first_runs s n = (seq, some p)) :
    ∃ c, seq = List.replicate n c ∧ runReach s p n c ∧
      ∀ q c', runReach s q n c' → p ≤ q :=
  find_first_runs_some_charact s n hn seq p h

theorem first_run_records_first_reach_witness :
    2 ≤ 2 ∧ 2 ≤ 9 ∧ find_first_runs "1.0112223333".data 2 = ("11".data, some 4) ∧
    (∃ c, "11".data = List.replicate 2 c ∧ runReach "1.0112223333".data 4 2 c ∧
      ∀ q c', runReach "1.0112223333".data q 2 c' → 4 ≤ q) :=
  ⟨by decide, by decide, by decide,
    first_run_records_first_reach "1.0112223333".data 2 (by decide) (by decide)
      "11".data 4 (by decide)⟩

/-- C3 counterexample: over the literal input `"1.0112223333"` the
scanner does not produce the start positions 3 and 5 stated in the
specification scenario (positions are 1-based and count the integer
digit and the separator, so `"11"` starts at 4 and `"222"` at 6). -/
theorem scanner_unit_scenario_cex :
    ¬ (find_first_runs "1.0112223333".data 2 = ("11".data, some 3) ∧
       find_first_runs "1.0112223333".data 3 = ("222".data, some 5) ∧
       find_first_runs "1.0112223333".data 4 = ("3333".data, some 9)) := by
  decide

/-- C3 (amended): over the literal input `"1.0112223333"` with target
lengths 2, 3, 4 the scanner records, in order of `n`,
`(n=2, "11", 4)`, `(n=3, "222", 6)`, `(n=4, "3333", 9)`. -/
theorem scanner_unit_scenario :
    find_first_runs "1.0112223333".data 2 = ("11".data, some 4) ∧
    find_first_runs "1.0112223333".data 3 = ("222".data, some 6) ∧
    find_first_runs "1.0112223333".data 4 = ("3333".data, some 9) := by
  decide

/-- C6 (amended): the live-phase loop of `curses_main` performs no
first-run recording at all: it updates the position counter and run
state exactly as the batch loop does, but the milestone events and the
set of still-unrecorded run lengths never change, so any entry unset
when the batch prefix is exhausted remains unset. -/
theorem live_phase_no_recording (st : CoState) (l : List Char) :
    (List.foldl liveStep st l).events = st.events ∧
    (List.foldl liveStep st l).remaining = st.remaining ∧
    (List.foldl liveStep st l).total_pos = (List.foldl coStep st l).total_pos ∧
    (List.foldl liveStep st l).run_char = (List.foldl coStep st l).run_char ∧
    (List.foldl liveStep st l).run_len = (List.foldl coStep st l).run_len := by
  obtain ⟨h1, h2⟩ := live_events_remaining l st
  obtain ⟨h3, h4, h5⟩ := live_run_agree l st st rfl rfl rfl
  exact ⟨h1, h2, h3, h4, h5⟩

/-- C6 counterexample: starting from a post-batch state in which run
length 9 is still unrecorded, feeding nine consecutive `'9'` characters
through the live loop completes a run of length 9 but records no
milestone event for it, whereas the batch loop on the same input would
have recorded `("999999999", 3)`. -/
theorem late_milestones_cex :
    9 ∈ (List.foldl coStep coInit ['1', '.']).remaining ∧
    (List.foldl liveStep (List.foldl coStep coInit ['1', '.'])
      (List.replicate 9 '9')).run_len = 9 ∧
    eventFor (List.foldl liveStep (List.foldl coStep coInit ['1', '.'])
      (List.replicate 9 '9')) 9 = none ∧
    eventFor (List.foldl coStep (List.foldl coStep coInit ['1', '.'])
      (List.replicate 9 '9')) 9 = some (List.replicate 9 '9', 3) := by
  decide

/-- C7: engine output contract: for `N ≥ 2` the engine returns exactly
`N` characters, starting with `"1."`, with every further character the
corresponding decimal digit of φ; the result is the first attempt
(working precision `N + 50`) truncated to `N` characters, and whenever
an attempt is shorter than `N` the loop retries at precision
`prec + 50` instead of surfacing an error. -/
theorem engine_output_contract (N : ℕ) (hN : 2 ≤ N) :
    ( get_phi_prefix N).length = N ∧
    ( get_phi_prefix N).take 2 = ['1', '.'] ∧
    (∀ i, 2 ≤ i → i < N →
      ( get_phi_prefix N).getD i ' ' = digitChar (phiFracDigit (i - 1)) ∧
      (( get_phi_prefix N).getD i ' ').isDigit = true) ∧
    get_phi_prefix N = (decimalPhiFormat (N + 50)).take N ∧
    (∀ fuel prec, (decimalPhiFormat prec).length < N →
      getPhiLoop N (fuel + 1) prec = getPhiLoop N fuel (prec + 50)) := by
  refine ⟨?_, ?_, ?_, get_phi_prefix_eq_take N, ?_⟩
  · rw [get_phi_prefix_eq_take, List.length_take,
      decimalPhiFormat_length _ (by omega)]
    omega
  · rw [get_phi_prefix_eq_map N hN]
    rfl
  · intro i h2 hiN
    rw [get_phi_prefix_eq_map N hN]
    obtain ⟨i', rfl⟩ : ∃ i', i = i' + 2 := ⟨i - 2, by omega⟩
    simp only [List.getD_cons_succ]
    have hi' : i' < N - 2 := by omega
    have hval : ((List.range (N - 2)).map
        (fun i => digitChar (phiFracDigit (i + 1)))).getD i' ' ' =
        digitChar (phiFracDigit (i' + 1)) := by
      simp [List.getD, hi']
    rw [hval]
    have hidx : i' + 2 - 1 = i' + 1 := by omega
    rw [hidx]
    exact ⟨rfl, digitChar_isDigit _ (phiFracDigit_lt _)⟩
  · intro fuel prec hshort
    rw [getPhiLoop]
    simp only [if_pos hshort]

theorem engine_output_contract_witness :
    2 ≤ 4 ∧ ( get_phi_prefix 4).length = 4 ∧
    ( get_phi_prefix 4).take 2 = ['1', '.'] :=
  ⟨by decide, (engine_output_contract 4 (by decide)).1,
    (engine_output_contract 4 (by decide)).2.1⟩

/-- C9: reset property: after any non-digit character, the next digit
always starts a run of length exactly 1, regardless of the previous run
state; this holds for the scanner step of `find_first_runs` and for the
streaming loop of `curses_main` alike. -/
theorem reset_property (st : Option Char × ℕ) (cst : CoState) (c d : Char)
    (hc : c.isDigit = false) (hd : d.isDigit = true) :
    findStep (findStep st c) d = (some d, 1) ∧
    (coStep (coStep cst c) d).run_char = some d ∧
    (coStep (coStep cst c) d).run_len = 1 := by
  have h1 : findStep st c = (none, 0) := findStep_nondigit st c hc
  have h2 : findStep (none, 0) d = (some d, 1) := by simp [findStep, hd]
  have hcc := coStep_nondigit cst c hc
  have hx : ((coStep (coStep cst c) d).run_char, (coStep (coStep cst c) d).run_len) =
      (some d, 1) := by
    rw [coStep_run, hcc]
    exact h2
  exact ⟨by rw [h1, h2], congrArg Prod.fst hx, congrArg Prod.snd hx⟩

theorem reset_property_witness :
    ('.'.isDigit = false) ∧ ('7'.isDigit = true) ∧
    (findStep (findStep (some '3', 5) '.') '7' = (some '7', 1) ∧
     (coStep (coStep coInit '.') '7').run_char = some '7' ∧
     (coStep (coStep coInit '.') '7').run_len = 1) :=
  ⟨by decide, by decide, reset_property (some '3', 5) coInit '.' '7' (by decide) (by decide)⟩

/-- C10: equivalence of the two scanner implementations: for every input
and every `n` in 2..9, the milestone event recorded by the single-pass
streaming loop of `curses_main` coincides with the entry of the per-`n`
rescanning algorithm `find_first_runs` (a set entry corresponds to a
recorded event with the same sequence and start position, an unset entry
to the absence of an event). -/
theorem scanner_impls_equivalent (s : List Char) (n : ℕ)
    (h2 : 2 ≤ n) (h9 : n ≤ 9) :
    eventFor (List.foldl coStep coInit s) n =
      (find_first_runs s n).2.map (fun p => ((find_first_runs s n).1, p)) := by
  rw [find_first_runs_eq_hit s n (by omega), batch_eventFor s n h2 h9]
  cases firstHitFrom n (none, 0) 0 s with
  | none => rfl
  | some x =>
    obtain ⟨j, c⟩ := x
    rfl

theorem scanner_impls_equivalent_witness :
    2 ≤ 3 ∧ 3 ≤ 9 ∧
    eventFor (List.foldl coStep coInit "1.0112223333".data) 3 =
      (find_first_runs "1.0112223333".data 3).2.map
        (fun p => ((find_first_runs "1.0112223333".data 3).1, p)) :=
  ⟨by decide, by decide,
    scanner_impls_equivalent "1.0112223333".data 3 (by decide) (by decide)⟩

theorem firstHitFrom_append_none (n : ℕ) (l1 l2 : List Char)
    (st : Option Char × ℕ) (i : ℕ) (h : firstHitFrom n st i l1 = none) :
    firstHitFrom n st i (l1 ++ l2) =
      firstHitFrom n (List.foldl findStep st l1) (i + l1.length) l2 := by
  rw [firstHitFrom_append, h]

theorem firstHitFrom_append_some (n : ℕ) (l1 l2 : List Char)
    (st : Option Char × ℕ) (i : ℕ) (x : ℕ × Char)
    (h : firstHitFrom n st i l1 = some x) :
    firstHitFrom n st i (l1 ++ l2) = some x := by
  rw [firstHitFrom_append, h]

theorem scanRun_eq_foldl :
    ∀ (l : List Char) (st : Option Char × ℕ),
      scanRun st l = List.foldl findStep st l := by
  intro l
  induction l with
  | nil => intro st; rfl
  | cons ch rest ih =>
    intro st
    obtain ⟨rc, rl⟩ := st
    show scanRun (findStep (rc, rl) ch) rest = _
    rw [ih, List.foldl_cons]

/-- Once the scan can never reach run length `n`, it can never reach any
larger length either (the run length increases only in unit steps). -/
theorem firstHitFrom_none_mono (n m : ℕ) (hnm : n < m) :
    ∀ (l : List Char) (st : Option Char × ℕ) (i : ℕ), st.2 < n →
      firstHitFrom n st i l = none → firstHitFrom m st i l = none := by
  intro l
  induction l with
  | nil => intro st i _ _; rfl
  | cons ch rest ih =>
    intro st i hst h
    rw [firstHitFrom_cons] at h ⊢
    have hle := findStep_snd_le st ch
    by_cases hn : (findStep st ch).2 = n
    · rw [if_pos hn] at h
      exact absurd h (by simp)
    · rw [if_neg hn] at h
      have hlt : (findStep st ch).2 < n := by omega
      rw [if_neg (by omega)]
      exact ih _ _ hlt h

theorem rangeSplit (s m n : ℕ) :
    List.range' s (m + n) = List.range' s m ++ List.range' (s + m) n := by
  rw [List.range'_append_1, Nat.add_comm]

theorem sqrtFiveVal : Nat.sqrt (5 * 10 ^ 39996) = 2 * Blit - 10 ^ 19998 :=
  (Nat.eq_sqrt.mpr ⟨by decide, by decide⟩).symm

theorem phiFloor_eq (m : Nat) :
    phiFloor m = (10 ^ m + Nat.sqrt (5 * 10 ^ (2 * m))) / 2 := rfl

theorem phiFloorB : phiFloor 19998 = Blit := by
  rw [phiFloor_eq]
  rw [show (2 : Nat) * 19998 = 39996 from rfl]
  rw [sqrtFiveVal]
  decide

theorem phiFracFromB (j : ℕ) (h1 : 1 ≤ j) (h2 : j ≤ 19998) :
    phiFracDigit j = (Blit / 10 ^ (19998 - j)) % 10 := by
  unfold phiFracDigit
  rw [← phiFloor_div j 19998 h2, phiFloorB]

theorem chunkStep0 :
    List.foldl findStep ((none : Option Char), 0) dChunk0 = ((some '3' : Option Char), 1) := by
  rw [← scanRun_eq_foldl]
  decide

theorem chunkLen0 : dChunk0.length = 998 := by decide

theorem chunkStep1 :
    List.foldl findStep ((some '3' : Option Char), 1) dChunk1 = ((some '7' : Option Char), 1) := by
  rw [← scanRun_eq_foldl]
  decide

theorem chunkLen1 : dChunk1.length = 1000 := by decide

theorem chunkStep2 :
    List.foldl findStep ((some '7' : Option Char), 1) dChunk2 = ((some '2' : Option Char), 1) := by
  rw [← scanRun_eq_foldl]
  decide

theorem chunkLen2 : dChunk2.length = 1000 := by decide

theorem chunkStep3 :
    List.foldl findStep ((some '2' : Option Char), 1) dChunk3 = ((some '2' : Option Char), 1) := by
  rw [← scanRun_eq_foldl]
  decide

theorem chunkLen3 : dChunk3.length = 1000 := by decide

theorem chunkStep4 :
    List.foldl findStep ((some '2' : Option Char), 1) dChunk4 = ((some '2' : Option Char), 1) := by
  rw [← scanRun_eq_foldl]
  decide

theorem chunkLen4 : dChunk4.length = 1000 := by decide

theorem chunkStep5 :
    List.foldl findStep ((some '2' : Option Char), 1) dChunk5 = ((some '8' : Option Char), 1) := by
  rw [← scanRun_eq_foldl]
  decide

theorem chunkLen5 : dChunk5.length = 1000 := by decide

theorem chunkStep6 :
    List.foldl findStep ((some '8' : Option Char), 1) dChunk6 = ((some '1' : Option Char), 1) := by
  rw [← scanRun_eq_foldl]
  decide

theorem chunkLen6 : dChunk6.length = 1000 := by decide

theorem chunkStep7 :
    List.foldl findStep ((some '1' : Option Char), 1) dChunk7 = ((some '9' : Option Char), 1) := by
  rw [← scanRun_eq_foldl]
  decide

theorem chunkLen7 : dChunk7.length = 1000 := by decide

theorem chunkStep8 :
    List.foldl findStep ((some '9' : Option Char), 1) dChunk8 = ((some '9' : Option Char), 1) := by
  rw [← scanRun_eq_foldl]
  decide

theorem chunkLen8 : dChunk8.length = 1000 := by decide

theorem chunkStep9 :
    List.foldl findStep ((some '9' : Option Char), 1) dChunk9 = ((some '8' : Option Char), 1) := by
  rw [← scanRun_eq_foldl]
  decide

theorem chunkLen9 : dChunk9.length = 1000 := by decide

theorem chunkStep10 :
    List.foldl findStep ((some '8' : Option Char), 1) dChunk10 = ((some '2' : Option Char), 2) := by
  rw [← scanRun_eq_foldl]
  decide

theorem chunkLen10 : dChunk10.length = 1000 := by decide

theorem chunkStep11 :
    List.foldl findStep ((some '2' : Option Char), 2) dChunk11 = ((some '6' : Option Char), 1) := by
  rw [← scanRun_eq_foldl]
  decide

theorem chunkLen11 : dChunk11.length = 1000 := by decide

theorem chunkStep12 :
    List.foldl findStep ((some '6' : Option Char), 1) dChunk12 = ((some '1' : Option Char), 1) := by
  rw [← scanRun_eq_foldl]
  decide

theorem chunkLen12 : dChunk12.length = 1000 := by decide

theorem chunkStep13 :
    List.foldl findStep ((some '1' : Option Char), 1) dChunk13 = ((some '1' : Option Char), 1) := by
  rw [← scanRun_eq_foldl]
  decide

theorem chunkLen13 : dChunk13.length = 1000 := by decide

theorem chunkStep14 :
    List.foldl findStep ((some '1' : Option Char), 1) dChunk14 = ((some '7' : Option Char), 2) := by
  rw [← scanRun_eq_foldl]
  decide

theorem chunkLen14 : dChunk14.length = 1000 := by decide

theorem chunkStep15 :
    List.foldl findStep ((some '7' : Option Char), 2) dChunk15 = ((some '9' : Option Char), 1) := by
  rw [← scanRun_eq_foldl]
  decide

theorem chunkLen15 : dChunk15.length = 1000 := by decide

theorem chunkStep16 :
    List.foldl findStep ((some '9' : Option Char), 1) dChunk16 = ((some '9' : Option Char), 1) := by
  rw [← scanRun_eq_foldl]
  decide

theorem chunkLen16 : dChunk16.length = 1000 := by decide

theorem chunkStep17 :
    List.foldl findStep ((some '9' : Option Char), 1) dChunk17 = ((some '0' : Option Char), 1) := by
  rw [← scanRun_eq_foldl]
  decide

theorem chunkLen17 : dChunk17.length = 1000 := by decide

theorem chunkStep18 :
    List.foldl findStep ((some '0' : Option Char), 1) dChunk18 = ((some '7' : Option Char), 1) := by
  rw [← scanRun_eq_foldl]
  decide

theorem chunkLen18 : dChunk18.length = 1000 := by decide

theorem chunkStep19 :
    List.foldl findStep ((some '7' : Option Char), 1) dChunk19 = ((some '2' : Option Char), 1) := by
  rw [← scanRun_eq_foldl]
  decide

theorem chunkLen19 : dChunk19.length = 1000 := by decide

theorem chunkMap0 : (List.range' 0 998).map bDigit = dChunk0 := by
  decide

theorem chunkMap1 : (List.range' 998 1000).map bDigit = dChunk1 := by
  decide

theorem chunkMap2 : (List.range' 1998 1000).map bDigit = dChunk2 := by
  decide

theorem chunkMap3 : (List.range' 2998 1000).map bDigit = dChunk3 := by
  decide

theorem chunkMap4 : (List.range' 3998 1000).map bDigit = dChunk4 := by
  decide

theorem chunkMap5 : (List.range' 4998 1000).map bDigit = dChunk5 := by
  decide

theorem chunkMap6 : (List.range' 5998 1000).map bDigit = dChunk6 := by
  decide

theorem chunkMap7 : (List.range' 6998 1000).map bDigit = dChunk7 := by
  decide

theorem chunkMap8 : (List.range' 7998 1000).map bDigit = dChunk8 := by
  decide

theorem chunkMap9 : (List.range' 8998 1000).map bDigit = dChunk9 := by
  decide

theorem chunkMap10 : (List.range' 9998 1000).map bDigit = dChunk10 := by
  decide

theorem chunkMap11 : (List.range' 10998 1000).map bDigit = dChunk11 := by
  decide

theorem chunkMap12 : (List.range' 11998 1000).map bDigit = dChunk12 := by
  decide

theorem chunkMap13 : (List.range' 12998 1000).map bDigit = dChunk13 := by
  decide

theorem chunkMap14 : (List.range' 13998 1000).map bDigit = dChunk14 := by
  decide

theorem chunkMap15 : (List.range' 14998 1000).map bDigit = dChunk15 := by
  decide

theorem chunkMap16 : (List.range' 15998 1000).map bDigit = dChunk16 := by
  decide

theorem chunkMap17 : (List.range' 16998 1000).map bDigit = dChunk17 := by
  decide

theorem chunkMap18 : (List.range' 17998 1000).map bDigit = dChunk18 := by
  decide

theorem chunkMap19 : (List.range' 18998 1000).map bDigit = dChunk19 := by
  decide

theorem bigMapEq :
    (List.range 19998).map (fun i => digitChar (phiFracDigit (i + 1))) = phiDigitsList := by
  have hcong : (List.range 19998).map (fun i => digitChar (phiFracDigit (i + 1))) =
      (List.range 19998).map bDigit := by
    apply List.map_congr_left
    intro i hi
    rw [List.mem_range] at hi
    unfold bDigit
    rw [phiFracFromB (i + 1) (by omega) (by omega)]
  rw [hcong, List.range_eq_range']
  rw [show (19998:ℕ) = 998 + 19000 from rfl, rangeSplit, List.map_append, chunkMap0,
    show (0:ℕ) + 998 = 998 from rfl]
  rw [show (19000:ℕ) = 1000 + 18000 from rfl, rangeSplit, List.map_append, chunkMap1,
    show (998:ℕ) + 1000 = 1998 from rfl]
  rw [show (18000:ℕ) = 1000 + 17000 from rfl, rangeSplit, List.map_append, chunkMap2,
    show (1998:ℕ) + 1000 = 2998 from rfl]
  rw [show (17000:ℕ) = 1000 + 16000 from rfl, rangeSplit, List.map_append, chunkMap3,
    show (2998:ℕ) + 1000 = 3998 from rfl]
  rw [show (16000:ℕ) = 1000 + 15000 from rfl, rangeSplit, List.map_append, chunkMap4,
    show (3998:ℕ) + 1000 = 4998 from rfl]
  rw [show (15000:ℕ) = 1000 + 14000 from rfl, rangeSplit, List.map_append, chunkMap5,
    show (4998:ℕ) + 1000 = 5998 from rfl]
  rw [show (14000:ℕ) = 1000 + 13000 from rfl, rangeSplit, List.map_append, chunkMap6,
    show (5998:ℕ) + 1000 = 6998 from rfl]
  rw [show (13000:ℕ) = 1000 + 12000 from rfl, rangeSplit, List.map_append, chunkMap7,
    show (6998:ℕ) + 1000 = 7998 from rfl]
  rw [show (12000:ℕ) = 1000 + 11000 from rfl, rangeSplit, List.map_append, chunkMap8,
    show (7998:ℕ) + 1000 = 8998 from rfl]
  rw [show (11000:ℕ) = 1000 + 10000 from rfl, rangeSplit, List.map_append, chunkMap9,
    show (8998:ℕ) + 1000 = 9998 from rfl]
  rw [show (10000:ℕ) = 1000 + 9000 from rfl, rangeSplit, List.map_append, chunkMap10,
    show (9998:ℕ) + 1000 = 10998 from rfl]
  rw [show (9000:ℕ) = 1000 + 8000 from rfl, rangeSplit, List.map_append, chunkMap11,
    show (10998:ℕ) + 1000 = 11998 from rfl]
  rw [show (8000:ℕ) = 1000 + 7000 from rfl, rangeSplit, List.map_append, chunkMap12,
    show (11998:ℕ) + 1000 = 12998 from rfl]
  rw [show (7000:ℕ) = 1000 + 6000 from rfl, rangeSplit, List.map_append, chunkMap13,
    show (12998:ℕ) + 1000 = 13998 from rfl]
  rw [show (6000:ℕ) = 1000 + 5000 from rfl, rangeSplit, List.map_append, chunkMap14,
    show (13998:ℕ) + 1000 = 14998 from rfl]
  rw [show (5000:ℕ) = 1000 + 4000 from rfl, rangeSplit, List.map_append, chunkMap15,
    show (14998:ℕ) + 1000 = 15998 from rfl]
  rw [show (4000:ℕ) = 1000 + 3000 from rfl, rangeSplit, List.map_append, chunkMap16,
    show (15998:ℕ) + 1000 = 16998 from rfl]
  rw [show (3000:ℕ) = 1000 + 2000 from rfl, rangeSplit, List.map_append, chunkMap17,
    show (16998:ℕ) + 1000 = 17998 from rfl]
  rw [show (2000:ℕ) = 1000 + 1000 from rfl, rangeSplit, List.map_append, chunkMap18,
    show (17998:ℕ) + 1000 = 18998 from rfl]
  rw [chunkMap19]
  rfl

theorem phiListEq : get_phi_prefix 20000 = phiList := by
  rw [get_phi_prefix_eq_map 20000 (by omega)]
  have h2 : (20000:ℕ) - 2 = 19998 := rfl
  rw [h2, bigMapEq]
  rfl

theorem phiHitInit (n : ℕ) (hn : 2 ≤ n) :
    firstHitFrom n (none, 0) 0 phiList =
      firstHitFrom n ((none : Option Char), 0) 2 phiDigitsList := by
  have h1 : (findStep ((none : Option Char), 0) '1').2 = 1 := by decide
  have h2 : findStep (findStep ((none : Option Char), 0) '1') '.' =
      ((none : Option Char), 0) := by decide
  show firstHitFrom n (none, 0) 0 ('1' :: '.' :: phiDigitsList) = _
  rw [firstHitFrom_cons, if_neg (by rw [h1]; omega), firstHitFrom_cons, h2,
    if_neg (by simp; omega)]

theorem phiHit2 : firstHitFrom 2 (none, 0) 0 phiList = some ((7, '3') : ℕ × Char) := by
  rw [phiHitInit 2 (by omega)]
  unfold phiDigitsList
  exact firstHitFrom_append_some 2 dChunk0 _ _ _ _ (by decide)

theorem phiHit3 : firstHitFrom 3 (none, 0) 0 phiList = some ((132, '2') : ℕ × Char) := by
  rw [phiHitInit 3 (by omega)]
  unfold phiDigitsList
  exact firstHitFrom_append_some 3 dChunk0 _ _ _ _ (by decide)

theorem phiHit4 : firstHitFrom 4 (none, 0) 0 phiList = some ((1220, '4') : ℕ × Char) := by
  rw [phiHitInit 4 (by omega)]
  unfold phiDigitsList
  have e0 : firstHitFrom 4 ((none : Option Char), 0) 2 dChunk0 = none := by decide
  rw [firstHitFrom_append_none 4 dChunk0 _ _ _ e0, chunkStep0, chunkLen0,
    show (2:ℕ) + 998 = 1000 from rfl]
  exact firstHitFrom_append_some 4 dChunk1 _ _ _ _ (by decide)

theorem phiHit5 : firstHitFrom 5 (none, 0) 0 phiList = some ((6404, '9') : ℕ × Char) := by
  rw [phiHitInit 5 (by omega)]
  unfold phiDigitsList
  have e0 : firstHitFrom 5 ((none : Option Char), 0) 2 dChunk0 = none := by decide
  rw [firstHitFrom_append_none 5 dChunk0 _ _ _ e0, chunkStep0, chunkLen0,
    show (2:ℕ) + 998 = 1000 from rfl]
  have e1 : firstHitFrom 5 ((some '3' : Option Char), 1) 1000 dChunk1 = none := by decide
  rw [firstHitFrom_append_none 5 dChunk1 _ _ _ e1, chunkStep1, chunkLen1,
    show (1000:ℕ) + 1000 = 2000 from rfl]
  have e2 : firstHitFrom 5 ((some '7' : Option Char), 1) 2000 dChunk2 = none := by decide
  rw [firstHitFrom_append_none 5 dChunk2 _ _ _ e2, chunkStep2, chunkLen2,
    show (2000:ℕ) + 1000 = 3000 from rfl]
  have e3 : firstHitFrom 5 ((some '2' : Option Char), 1) 3000 dChunk3 = none := by decide
  rw [firstHitFrom_append_none 5 dChunk3 _ _ _ e3, chunkStep3, chunkLen3,
    show (3000:ℕ) + 1000 = 4000 from rfl]
  have e4 : firstHitFrom 5 ((some '2' : Option Char), 1) 4000 dChunk4 = none := by decide
  rw [firstHitFrom_append_none 5 dChunk4 _ _ _ e4, chunkStep4, chunkLen4,
    show (4000:ℕ) + 1000 = 5000 from rfl]
  have e5 : firstHitFrom 5 ((some '2' : Option Char), 1) 5000 dChunk5 = none := by decide
  rw [firstHitFrom_append_none 5 dChunk5 _ _ _ e5, chunkStep5, chunkLen5,
    show (5000:ℕ) + 1000 = 6000 from rfl]
  exact firstHitFrom_append_some 5 dChunk6 _ _ _ _ (by decide)

theorem phiHit6 : firstHitFrom 6 (none, 0) 0 phiList = (none : Option (ℕ × Char)) := by
  rw [phiHitInit 6 (by omega)]
  unfold phiDigitsList
  have e0 : firstHitFrom 6 ((none : Option Char), 0) 2 dChunk0 = none := by decide
  rw [firstHitFrom_append_none 6 dChunk0 _ _ _ e0, chunkStep0, chunkLen0,
    show (2:ℕ) + 998 = 1000 from rfl]
  have e1 : firstHitFrom 6 ((some '3' : Option Char), 1) 1000 dChunk1 = none := by decide
  rw [firstHitFrom_append_none 6 dChunk1 _ _ _ e1, chunkStep1, chunkLen1,
    show (1000:ℕ) + 1000 = 2000 from rfl]
  have e2 : firstHitFrom 6 ((some '7' : Option Char), 1) 2000 dChunk2 = none := by decide
  rw [firstHitFrom_append_none 6 dChunk2 _ _ _ e2, chunkStep2, chunkLen2,
    show (2000:ℕ) + 1000 = 3000 from rfl]
  have e3 : firstHitFrom 6 ((some '2' : Option Char), 1) 3000 dChunk3 = none := by decide
  rw [firstHitFrom_append_none 6 dChunk3 _ _ _ e3, chunkStep3, chunkLen3,
    show (3000:ℕ) + 1000 = 4000 from rfl]
  have e4 : firstHitFrom 6 ((some '2' : Option Char), 1) 4000 dChunk4 = none := by decide
  rw [firstHitFrom_append_none 6 dChunk4 _ _ _ e4, chunkStep4, chunkLen4,
    show (4000:ℕ) + 1000 = 5000 from rfl]
  have e5 : firstHitFrom 6 ((some '2' : Option Char), 1) 5000 dChunk5 = none := by decide
  rw [firstHitFrom_append_none 6 dChunk5 _ _ _ e5, chunkStep5, chunkLen5,
    show (5000:ℕ) + 1000 = 6000 from rfl]
  have e6 : firstHitFrom 6 ((some '8' : Option Char), 1) 6000 dChunk6 = none := by decide
  rw [firstHitFrom_append_none 6 dChunk6 _ _ _ e6, chunkStep6, chunkLen6,
    show (6000:ℕ) + 1000 = 7000 from rfl]
  have e7 : firstHitFrom 6 ((some '1' : Option Char), 1) 7000 dChunk7 = none := by decide
  rw [firstHitFrom_append_none 6 dChunk7 _ _ _ e7, chunkStep7, chunkLen7,
    show (7000:ℕ) + 1000 = 8000 from rfl]
  have e8 : firstHitFrom 6 ((some '9' : Option Char), 1) 8000 dChunk8 = none := by decide
  rw [firstHitFrom_append_none 6 dChunk8 _ _ _ e8, chunkStep8, chunkLen8,
    show (8000:ℕ) + 1000 = 9000 from rfl]
  have e9 : firstHitFrom 6 ((some '9' : Option Char), 1) 9000 dChunk9 = none := by decide
  rw [firstHitFrom_append_none 6 dChunk9 _ _ _ e9, chunkStep9, chunkLen9,
    show (9000:ℕ) + 1000 = 10000 from rfl]
  have e10 : firstHitFrom 6 ((some '8' : Option Char), 1) 10000 dChunk10 = none := by decide
  rw [firstHitFrom_append_none 6 dChunk10 _ _ _ e10, chunkStep10, chunkLen10,
    show (10000:ℕ) + 1000 = 11000 from rfl]
  have e11 : firstHitFrom 6 ((some '2' : Option Char), 2) 11000 dChunk11 = none := by decide
  rw [firstHitFrom_append_none 6 dChunk11 _ _ _ e11, chunkStep11, chunkLen11,
    show (11000:ℕ) + 1000 = 12000 from rfl]
  have e12 : firstHitFrom 6 ((some '6' : Option Char), 1) 12000 dChunk12 = none := by decide
  rw [firstHitFrom_append_none 6 dChunk12 _ _ _ e12, chunkStep12, chunkLen12,
    show (12000:ℕ) + 1000 = 13000 from rfl]
  have e13 : firstHitFrom 6 ((some '1' : Option Char), 1) 13000 dChunk13 = none := by decide
  rw [firstHitFrom_append_none 6 dChunk13 _ _ _ e13, chunkStep13, chunkLen13,
    show (13000:ℕ) + 1000 = 14000 from rfl]
  have e14 : firstHitFrom 6 ((some '1' : Option Char), 1) 14000 dChunk14 = none := by decide
  rw [firstHitFrom_append_none 6 dChunk14 _ _ _ e14, chunkStep14, chunkLen14,
    show (14000:ℕ) + 1000 = 15000 from rfl]
  have e15 : firstHitFrom 6 ((some '7' : Option Char), 2) 15000 dChunk15 = none := by decide
  rw [firstHitFrom_append_none 6 dChunk15 _ _ _ e15, chunkStep15, chunkLen15,
    show (15000:ℕ) + 1000 = 16000 from rfl]
  have e16 : firstHitFrom 6 ((some '9' : Option Char), 1) 16000 dChunk16 = none := by decide
  rw [firstHitFrom_append_none 6 dChunk16 _ _ _ e16, chunkStep16, chunkLen16,
    show (16000:ℕ) + 1000 = 17000 from rfl]
  have e17 : firstHitFrom 6 ((some '9' : Option Char), 1) 17000 dChunk17 = none := by decide
  rw [firstHitFrom_append_none 6 dChunk17 _ _ _ e17, chunkStep17, chunkLen17,
    show (17000:ℕ) + 1000 = 18000 from rfl]
  have e18 : firstHitFrom 6 ((some '0' : Option Char), 1) 18000 dChunk18 = none := by decide
  rw [firstHitFrom_append_none 6 dChunk18 _ _ _ e18, chunkStep18, chunkLen18,
    show (18000:ℕ) + 1000 = 19000 from rfl]
  have e19 : firstHitFrom 6 ((some '7' : Option Char), 1) 19000 dChunk19 = none := by decide
  exact e19

theorem phiHit7 : firstHitFrom 7 (none, 0) 0 phiList = none :=
  firstHitFrom_none_mono 6 7 (by omega) phiList (none, 0) 0 (by decide) phiHit6

theorem phiHit8 : firstHitFrom 8 (none, 0) 0 phiList = none :=
  firstHitFrom_none_mono 6 8 (by omega) phiList (none, 0) 0 (by decide) phiHit6

theorem phiHit9 : firstHitFrom 9 (none, 0) 0 phiList = none :=
  firstHitFrom_none_mono 6 9 (by omega) phiList (none, 0) 0 (by decide) phiHit6

theorem scanPhi2 : find_first_runs phiList 2 = ("33".data, some 7) := by
  rw [find_first_runs_eq_hit phiList 2 (by omega), phiHit2]
  decide

theorem phiScan20000n2 : find_first_runs ( get_phi_prefix 20000) 2 = ("33".data, some 7) := by
  rw [phiListEq]
  exact scanPhi2

theorem scanPhi3 : find_first_runs phiList 3 = ("222".data, some 131) := by
  rw [find_first_runs_eq_hit phiList 3 (by omega), phiHit3]
  decide

theorem phiScan20000n3 : find_first_runs ( get_phi_prefix 20000) 3 = ("222".data, some 131) := by
  rw [phiListEq]
  exact scanPhi3

theorem scanPhi4 : find_first_runs phiList 4 = ("4444".data, some 1218) := by
  rw [find_first_runs_eq_hit phiList 4 (by omega), phiHit4]
  decide

theorem phiScan20000n4 : find_first_runs ( get_phi_prefix 20000) 4 = ("4444".data, some 1218) := by
  rw [phiListEq]
  exact scanPhi4

theorem scanPhi5 : find_first_runs phiList 5 = ("99999".data, some 6401) := by
  rw [find_first_runs_eq_hit phiList 5 (by omega), phiHit5]
  decide

theorem phiScan20000n5 : find_first_runs ( get_phi_prefix 20000) 5 = ("99999".data, some 6401) := by
  rw [phiListEq]
  exact scanPhi5

theorem scanPhi6 : find_first_runs phiList 6 = ("N/A".data, none) := by
  rw [find_first_runs_eq_hit phiList 6 (by omega), phiHit6]

theorem phiScan20000n6 : find_first_runs ( get_phi_prefix 20000) 6 = ("N/A".data, none) := by
  rw [phiListEq]
  exact scanPhi6

theorem scanPhi7 : find_first_runs phiList 7 = ("N/A".data, none) := by
  rw [find_first_runs_eq_hit phiList 7 (by omega), phiHit7]

theorem phiScan20000n7 : find_first_runs ( get_phi_prefix 20000) 7 = ("N/A".data, none) := by
  rw [phiListEq]
  exact scanPhi7

theorem scanPhi8 : find_first_runs phiList 8 = ("N/A".data, none) := by
  rw [find_first_runs_eq_hit phiList 8 (by omega), phiHit8]

theorem phiScan20000n8 : find_first_runs ( get_phi_prefix 20000) 8 = ("N/A".data, none) := by
  rw [phiListEq]
  exact scanPhi8

theorem scanPhi9 : find_first_runs phiList 9 = ("N/A".data, none) := by
  rw [find_first_runs_eq_hit phiList 9 (by omega), phiHit9]

theorem phiScan20000n9 : find_first_runs ( get_phi_prefix 20000) 9 = ("N/A".data, none) := by
  rw [phiListEq]
  exact scanPhi9

/-- C4: reference scenario: scanning the exactly-20,000-character output
of the digit engine with the run scanner yields, for n = 2..9, exactly
the reference values: n=2 → ("33", 7); n=3 → ("222", 131);
n=4 → ("4444", 1218); n=5 → ("99999", 6401); and for n = 6..9 no
occurrence (sequence "N/A", no position). -/
theorem reference_scenario_20000 :
    find_first_runs ( get_phi_prefix 20000) 2 = ("33".data, some 7) ∧
    find_first_runs ( get_phi_prefix 20000) 3 = ("222".data, some 131) ∧
    find_first_runs ( get_phi_prefix 20000) 4 = ("4444".data, some 1218) ∧
    find_first_runs ( get_phi_prefix 20000) 5 = ("99999".data, some 6401) ∧
    find_first_runs ( get_phi_prefix 20000) 6 = ("N/A".data, none) ∧
    find_first_runs ( get_phi_prefix 20000) 7 = ("N/A".data, none) ∧
    find_first_runs ( get_phi_prefix 20000) 8 = ("N/A".data, none) ∧
    find_first_runs ( get_phi_prefix 20000) 9 = ("N/A".data, none) :=
  ⟨phiScan20000n2, phiScan20000n3, phiScan20000n4, phiScan20000n5,
   phiScan20000n6, phiScan20000n7, phiScan20000n8, phiScan20000n9⟩

theorem mem_foldl_collect_of_mem_acc (truth found : ℕ → List Char × Option ℕ)
    (l : List ℕ) (acc : List (ℕ × (List Char × Option ℕ) × (List Char × Option ℕ)))
    (x : ℕ × (List Char × Option ℕ) × (List Char × Option ℕ)) (hx : x ∈ acc) :
    x ∈ l.foldl
      (fun acc n => if truth n ≠ found n then acc ++ [(n, truth n, found n)] else acc) acc := by
  induction l generalizing acc with
  | nil => simpa using hx
  | cons a t ih =>
    simp only [List.foldl_cons]
    by_cases h : truth a ≠ found a
    · rw [if_pos h]
      exact ih _ (List.mem_append_left _ hx)
    · rw [if_neg h]
      exact ih _ hx

theorem mem_foldl_collect (truth found : ℕ → List Char × Option ℕ)
    (l : List ℕ) (acc : List (ℕ × (List Char × Option ℕ) × (List Char × Option ℕ)))
    (n : ℕ) (hn : n ∈ l) (hne : truth n ≠ found n) :
    (n, truth n, found n) ∈ l.foldl
      (fun acc n => if truth n ≠ found n then acc ++ [(n, truth n, found n)] else acc) acc := by
  induction l generalizing acc with
  | nil => exact absurd hn (List.not_mem_nil n)
  | cons a t ih =>
    simp only [List.foldl_cons]
    rcases List.mem_cons.mp hn with rfl | hmem
    · rw [if_pos hne]
      exact mem_foldl_collect_of_mem_acc truth found t _ _
        (List.mem_append_right _ (List.mem_singleton_self _))
    · by_cases h : truth a ≠ found a
      · rw [if_pos h]
        exact ih _ hmem
      · rw [if_neg h]
        exact ih _ hmem

theorem foldl_collect_eq_of_allmatch (truth found : ℕ → List Char × Option ℕ)
    (l : List ℕ) (acc : List (ℕ × (List Char × Option ℕ) × (List Char × Option ℕ)))
    (h : ∀ n ∈ l, truth n = found n) :
    l.foldl
      (fun acc n => if truth n ≠ found n then acc ++ [(n, truth n, found n)] else acc) acc
      = acc := by
  induction l generalizing acc with
  | nil => rfl
  | cons a t ih =>
    simp only [List.foldl_cons]
    rw [if_neg (not_not.mpr (h a (List.mem_cons_self a t)))]
    exact ih acc (fun n hn => h n (List.mem_cons_of_mem a hn))

theorem run_debug_check_error (truth : ℕ → List Char × Option ℕ)
    (h : debug_mismatches truth (fun n => find_first_runs ( get_phi_prefix 20000) n) ≠ []) :
    run_debug_check truth =
      Except.error (debug_mismatches truth (fun n => find_first_runs ( get_phi_prefix 20000) n)) := by
  show (if debug_mismatches truth (fun n => find_first_runs ( get_phi_prefix 20000) n) ≠ [] then
      Except.error (debug_mismatches truth (fun n => find_first_runs ( get_phi_prefix 20000) n))
    else Except.ok ()) =
      Except.error (debug_mismatches truth (fun n => find_first_runs ( get_phi_prefix 20000) n))
  rw [if_pos h]

theorem run_debug_check_ok (truth : ℕ → List Char × Option ℕ)
    (h : debug_mismatches truth (fun n => find_first_runs ( get_phi_prefix 20000) n) = []) :
    run_debug_check truth = Except.ok () := by
  show (if debug_mismatches truth (fun n => find_first_runs ( get_phi_prefix 20000) n) ≠ [] then
      Except.error (debug_mismatches truth (fun n => find_first_runs ( get_phi_prefix 20000) n))
    else Except.ok ()) = Except.ok ()
  rw [if_neg (not_not.mpr h)]

/-- C8: verification failure reporting: if a (sequence, position) pair
computed over the 20,000-character prefix differs from the reference
table `truth`, then (a) every mismatching `n` in 2..9 appears in the
collected mismatch report together with its expected and found values,
(b) the harness aborts with the full mismatch report (`sys.exit(1)`,
modelled by `Except.error`), and (c) when all pairs of the table match,
the harness proceeds (`Except.ok`). -/
theorem verification_reporting (truth : ℕ → List Char × Option ℕ) :
    (∀ n, 2 ≤ n → n ≤ 9 → truth n ≠ find_first_runs ( get_phi_prefix 20000) n →
      (n, truth n, find_first_runs ( get_phi_prefix 20000) n) ∈
        debug_mismatches truth (fun k => find_first_runs ( get_phi_prefix 20000) k)) ∧
    ((∃ n, 2 ≤ n ∧ n ≤ 9 ∧ truth n ≠ find_first_runs ( get_phi_prefix 20000) n) →
      run_debug_check truth =
        Except.error (debug_mismatches truth (fun k => find_first_runs ( get_phi_prefix 20000) k))) ∧
    ((∀ n, 2 ≤ n → n ≤ 9 → truth n = find_first_runs ( get_phi_prefix 20000) n) →
      run_debug_check truth = Except.ok ()) := by
  refine ⟨?_, ?_, ?_⟩
  · intro n h2 h9 hne
    have hn : n ∈ List.range' 2 8 := by interval_cases n <;> decide
    exact mem_foldl_collect truth (fun k => find_first_runs ( get_phi_prefix 20000) k)
      (List.range' 2 8) [] n hn hne
  · rintro ⟨n, h2, h9, hne⟩
    have hn : n ∈ List.range' 2 8 := by interval_cases n <;> decide
    exact run_debug_check_error truth
      (List.ne_nil_of_mem (mem_foldl_collect truth
        (fun k => find_first_runs ( get_phi_prefix 20000) k) (List.range' 2 8) [] n hn hne))
  · intro hall
    apply run_debug_check_ok
    apply foldl_collect_eq_of_allmatch
    intro n hn
    have hrange : List.range' 2 8 = [2, 3, 4, 5, 6, 7, 8, 9] := rfl
    rw [hrange] at hn
    fin_cases hn <;> exact hall _ (by norm_num) (by norm_num)

/-- Witness for C8: a reference table corrupted at n = 2 makes the
harness abort with the mismatch report, while the actual `GROUND_TRUTH`
table makes it proceed. -/
theorem verification_reporting_witness :
    run_debug_check (fun k => if k = 2 then ("99".data, some 1) else GROUND_TRUTH k) =
      Except.error (debug_mismatches
        (fun k => if k = 2 then ("99".data, some 1) else GROUND_TRUTH k)
        (fun k => find_first_runs ( get_phi_prefix 20000) k)) ∧
    run_debug_check GROUND_TRUTH = Except.ok () := by
  constructor
  · exact (verification_reporting
      (fun k => if k = 2 then ("99".data, some 1) else GROUND_TRUTH k)).2.1
      ⟨2, by norm_num, by norm_num, by rw [phiScan20000n2]; decide⟩
  · refine (verification_reporting GROUND_TRUTH).2.2 ?_
    intro n h2 h9
    interval_cases n
    · exact phiScan20000n2.symm
    · exact phiScan20000n3.symm
    · exact phiScan20000n4.symm
    · exact phiScan20000n5.symm
    · exact phiScan20000n6.symm
    · exact phiScan20000n7.symm
    · exact phiScan20000n8.symm
    · exact phiScan20000n9.symm

end Founds
